import Mathlib

/-!
# MySwitcher: a cyclic timed switch controller

A shallow embedding of `src/my_switcher.cc` and `src/include/my_switcher.h`.

* The object state (`MySwitcher`) carries the members of the C++ class, field by field.
* `Time`, `Count` and `TickType_t` are `uint32_t`: such values are natural numbers here (below
  `2 ^ 32` when they come from the program) and every arithmetic operation of the source wraps
  explicitly modulo `2 ^ 32`.
* A `Callback` (`std::function<void(void*)>`) is an optional identifier: `none` is the empty
  function (`nullptr`). Running a callback appends an `Invocation` to the `invoked_` trace,
  which also records the phase stored in `status_info_.state` at that moment. Callbacks are
  taken not to call back into the controller.
* The collaborators are modelled by what the controller asks of them: `gpio_level_` is the
  level last passed to `gpio_set_level`, `timer_active_` and `timer_period_ms_` follow the
  `xTimerStart` / `xTimerStop` / `xTimerChangePeriod` requests (the period is kept as the
  millisecond argument handed to `pdMS_TO_TICKS`). The requests are recorded also when
  `ctrl_pin_` is `GPIO_NUM_NC` or `timer_handler_` is `nullptr`: what the driver and FreeRTOS
  do with such a request is outside the model, and so is a request they refuse.
* `xTaskGetTickCount()` is an input of every operation that reads it (`tick_now`);
  `portTICK_PERIOD_MS` is a parameter.
* Each operation is first modelled as one sequential transaction. `SetWorkParam`, `Start` and
  the timer-expiry handler are also given as their lock-delimited sections
  (`SetWorkParam_check` / `SetWorkParam_store` / `SetWorkParam_commit`, `Start_locked` /
  `Start_unlocked`, `SwitchToNextState_locked` / `SwitchToNextState_unlocked`): another caller
  may run between two sections, and a schedule is the sections of several calls in the order
  they take their locks.
* `Op` and `execAll` give the states a controller reaches through sequences of calls that do
  not overlap.
-/

namespace MySwitcher

/-! ## Machine arithmetic -/

/-- The modulus of `uint32_t` arithmetic. -/
def U32 : Nat := 4294967296

/-- Unsigned 32-bit addition. -/
def add32 (a b : Nat) : Nat := (a + b) % U32

/-- Unsigned 32-bit subtraction. -/
def sub32 (a b : Nat) : Nat := (a % U32 + (U32 - b % U32)) % U32

/-- Unsigned 32-bit multiplication. -/
def mul32 (a b : Nat) : Nat := (a * b) % U32

/-! ## Data model -/

/-- The work parameters, with the default member initialisers of the header. -/
structure WorkParam where
  work_time : Nat := 0
  pause_time : Nat := 0
  work_count : Nat := 1
deriving DecidableEq, Repr

/-- The phase of the controller (`enum class SwitcherState : uint8_t`). -/
inductive SwitcherState where
  | kIdle
  | kReady
  | kRun
  | kPause
  | kFinished
deriving DecidableEq, Repr

/-- The numeric value of a phase, used by the `>` comparisons of the source. -/
def SwitcherState.toNat : SwitcherState → Nat
  | .kIdle => 0
  | .kReady => 1
  | .kRun => 2
  | .kPause => 3
  | .kFinished => 4

/-- The live run status, with the default member initialisers of the header. -/
structure WorkState where
  state : SwitcherState := SwitcherState.kIdle
  run_time_total : Nat := 0
  time_left : Nat := 0
  count_left : Nat := 0
  start_tick : Nat := 0
deriving DecidableEq, Repr

/-- The kinds of callback (`enum CallbackType`). -/
inductive CallbackType where
  | kFinishedCallback
  | kRunDoneCallback
  | kPauseDoneCallback
  | kStartCallback
  | kMaxCallback
deriving DecidableEq, Repr

/-- The numeric value of a callback kind. -/
def CallbackType.toNat : CallbackType → Nat
  | .kFinishedCallback => 0
  | .kRunDoneCallback => 1
  | .kPauseDoneCallback => 2
  | .kStartCallback => 3
  | .kMaxCallback => 4

/-- A `std::function<void(void*)>`: `none` is the empty function. -/
abbrev Callback := Option Nat

/-- One run of a user callback: which function, with which argument, and the phase that
`status_info_.state` held when it was called. -/
structure Invocation where
  cb : Nat
  arg : Nat
  observed : SwitcherState
deriving DecidableEq, Repr

/-- `GPIO_NUM_NC`. -/
def GPIO_NUM_NC : Int := -1

end MySwitcher

/-- The members of `class MySwitcher`, followed by the state of its collaborators. -/
structure MySwitcher where
  ctrl_pin_ : Int
  active_high_ : Bool
  status_info_ : MySwitcher.WorkState := {}
  work_param_ : MySwitcher.WorkParam := {}
  /-- Whether `timer_handler_` is a timer (`true`) or `nullptr` (`false`). -/
  timer_handler_ : Bool := false
  start_cb_ : MySwitcher.Callback := none
  start_cb_arg_ : Nat := 0
  workdone_cb_ : MySwitcher.Callback := none
  workdone_cb_arg_ : Nat := 0
  pausedone_cb_ : MySwitcher.Callback := none
  pausedone_cb_arg_ : Nat := 0
  finished_cb_ : MySwitcher.Callback := none
  finished_cb_arg_ : Nat := 0
  /-- The level last passed to `gpio_set_level (ctrl_pin_, ·)`, `none` before the first call. -/
  gpio_level_ : Option Nat := none
  /-- Whether the one-shot timer has been asked to run and not been stopped since. -/
  timer_active_ : Bool := false
  /-- The period last requested of the timer, as the argument of `pdMS_TO_TICKS`. -/
  timer_period_ms_ : Nat := 1000
  /-- The callbacks run so far, oldest first. -/
  invoked_ : List MySwitcher.Invocation := []
deriving DecidableEq, Repr

namespace MySwitcher

/-! ## Collaborators -/

/-- `TurnOn`: `gpio_set_level(ctrl_pin_, active_high_ ? 1 : 0)`. -/
def TurnOn (self : MySwitcher) : MySwitcher :=
  { self with gpio_level_ := some (if self.active_high_ then 1 else 0) }

/-- `TurnOff`: `gpio_set_level(ctrl_pin_, active_high_ ? 0 : 1)`. -/
def TurnOff (self : MySwitcher) : MySwitcher :=
  { self with gpio_level_ := some (if self.active_high_ then 0 else 1) }

/-- `xTimerChangePeriod(timer_handler_, pdMS_TO_TICKS(ms), 0)`: sets the period and, as
FreeRTOS does for a dormant timer, starts it. -/
def xTimerChangePeriod (self : MySwitcher) (ms : Nat) : MySwitcher :=
  { self with timer_period_ms_ := ms, timer_active_ := true }

/-- `xTimerStart(timer_handler_, 0)`. -/
def xTimerStart (self : MySwitcher) : MySwitcher :=
  { self with timer_active_ := true }

/-- `xTimerStop(timer_handler_, 0)`. -/
def xTimerStop (self : MySwitcher) : MySwitcher :=
  { self with timer_active_ := false }

/-- Runs `cb(arg)` when `cb` is not empty: the guard `if (cb) { cb(arg); }` of the source. -/
def callIfSet (self : MySwitcher) (cb : Callback) (arg : Nat) : MySwitcher :=
  match cb with
  | some f =>
    { self with invoked_ := self.invoked_ ++ [{ cb := f, arg := arg, observed := self.status_info_.state }] }
  | none => self

/-- The output is ON: the level last driven is the active one for the polarity. -/
def outputOn (self : MySwitcher) : Prop :=
  self.gpio_level_ = some (if self.active_high_ then 1 else 0)

/-- The output is OFF: the level last driven is the inactive one for the polarity. -/
def outputOff (self : MySwitcher) : Prop :=
  self.gpio_level_ = some (if self.active_high_ then 0 else 1)

instance (self : MySwitcher) : Decidable (outputOn self) := by
  unfold outputOn; infer_instance

instance (self : MySwitcher) : Decidable (outputOff self) := by
  unfold outputOff; infer_instance

/-! ## Operations -/

/-- The constructor `MySwitcher(pin, active_high)`. `GPIO_NUM_MAX` is a constant of the
target and `timer_created` tells whether `xTimerCreate` returned a timer. -/
def ctor (GPIO_NUM_MAX : Int) (pin : Int) (active_high : Bool) (timer_created : Bool) :
    MySwitcher :=
  let self : MySwitcher := { ctrl_pin_ := pin, active_high_ := active_high }
  if pin ≤ GPIO_NUM_NC ∨ pin ≥ GPIO_NUM_MAX then
    { self with ctrl_pin_ := GPIO_NUM_NC }
  else
    let self := TurnOff self
    { self with timer_handler_ := timer_created, timer_active_ := false, timer_period_ms_ := 1000 }

/-- `bool MySwitcher::Start()`. -/
def Start (self : MySwitcher) (tick_now : Nat) : Bool × MySwitcher :=
  if self.status_info_.state ≠ SwitcherState.kReady then
    (false, self)
  else
    let self := { self with status_info_ := { self.status_info_ with
      state := SwitcherState.kRun
      run_time_total := 0
      time_left := self.work_param_.work_time
      count_left := self.work_param_.work_count } }
    let self := { self with status_info_ := { self.status_info_ with start_tick := tick_now } }
    let self := xTimerChangePeriod self (mul32 self.status_info_.time_left 1000)
    let self := TurnOn self
    let self := xTimerStart self
    let self := callIfSet self self.start_cb_ self.start_cb_arg_
    (true, self)

/-- `void MySwitcher::Stop()`. -/
def Stop (portTICK_PERIOD_MS : Nat) (self : MySwitcher) (tick_now : Nat) : MySwitcher :=
  let self :=
    if self.status_info_.state = SwitcherState.kRun ∨
        self.status_info_.state = SwitcherState.kPause then
      let self := xTimerStop self
      let self :=
        if self.status_info_.state = SwitcherState.kRun then
          { self with status_info_ := { self.status_info_ with
            run_time_total := add32 self.status_info_.run_time_total
              (mul32 (sub32 tick_now self.status_info_.start_tick) portTICK_PERIOD_MS / 1000) } }
        else self
      let self := { self with status_info_ := { self.status_info_ with
        state := SwitcherState.kFinished } }
      TurnOff self
    else self
  let self := callIfSet self self.finished_cb_ self.finished_cb_arg_
  { self with status_info_ := { self.status_info_ with state := SwitcherState.kReady } }

/-- `Time MySwitcher::GetRunTime()`. -/
def GetRunTime (self : MySwitcher) : Nat :=
  self.status_info_.run_time_total

/-- `bool MySwitcher::SetWorkParam(Time work, Time pause, Count count)`. -/
def SetWorkParam (self : MySwitcher) (work pause : Nat) (count : Nat) : Bool × MySwitcher :=
  if work = 0 ∨ count = 0 ∨ (pause = 0 ∧ count ≠ 1) then
    (false, self)
  else if self.status_info_.state.toNat > SwitcherState.kReady.toNat then
    (false, self)
  else
    let self := { self with work_param_ :=
      { work_time := work, pause_time := pause, work_count := count } }
    let self := { self with status_info_ := { self.status_info_ with
      state := SwitcherState.kReady } }
    (true, self)

/-- `bool MySwitcher::SetCallback(Callback cb, void* arg, CallbackType type)`. -/
def SetCallback (self : MySwitcher) (cb : Callback) (arg : Nat) (type : CallbackType) :
    Bool × MySwitcher :=
  if type.toNat ≥ CallbackType.kMaxCallback.toNat then
    (false, self)
  else if self.status_info_.state.toNat > SwitcherState.kReady.toNat then
    (false, self)
  else
    match type with
    | .kFinishedCallback => (true, { self with finished_cb_ := cb, finished_cb_arg_ := arg })
    | .kRunDoneCallback => (true, { self with workdone_cb_ := cb, workdone_cb_arg_ := arg })
    | .kPauseDoneCallback => (true, { self with pausedone_cb_ := cb, pausedone_cb_arg_ := arg })
    | .kStartCallback => (true, { self with start_cb_ := cb, start_cb_arg_ := arg })
    | .kMaxCallback => (false, self)

/-- `OnStart(cb, arg)`. -/
def OnStart (self : MySwitcher) (cb : Callback) (arg : Nat) : Bool × MySwitcher :=
  SetCallback self cb arg CallbackType.kStartCallback

/-- `OnWorkDone(cb, arg)`. -/
def OnWorkDone (self : MySwitcher) (cb : Callback) (arg : Nat) : Bool × MySwitcher :=
  SetCallback self cb arg CallbackType.kRunDoneCallback

/-- `OnPauseDone(cb, arg)`. -/
def OnPauseDone (self : MySwitcher) (cb : Callback) (arg : Nat) : Bool × MySwitcher :=
  SetCallback self cb arg CallbackType.kPauseDoneCallback

/-- `OnFinished(cb, arg)`. -/
def OnFinished (self : MySwitcher) (cb : Callback) (arg : Nat) : Bool × MySwitcher :=
  SetCallback self cb arg CallbackType.kFinishedCallback

/-- `void MySwitcher::SwitchToNextState()`, the handler the timer expiry schedules. -/
def SwitchToNextState (self : MySwitcher) (tick_now : Nat) : MySwitcher :=
  match self.status_info_.state with
  | .kRun =>
    let self := TurnOff self
    let self := { self with status_info_ := { self.status_info_ with
      count_left := sub32 self.status_info_.count_left 1 } }
    let self := { self with status_info_ := { self.status_info_ with
      run_time_total := add32 self.status_info_.run_time_total self.work_param_.work_time } }
    if self.status_info_.count_left = 0 then
      let self := { self with status_info_ := { self.status_info_ with
        state := SwitcherState.kFinished } }
      let self := xTimerStop self
      -- `finshed_flag` is set: the reset to `kReady` is inside the `finished_cb_` guard
      match self.finished_cb_ with
      | some _ =>
        let self := callIfSet self self.finished_cb_ self.finished_cb_arg_
        { self with status_info_ := { self.status_info_ with state := SwitcherState.kReady } }
      | none => self
    else
      let self := { self with status_info_ := { self.status_info_ with
        state := SwitcherState.kPause
        time_left := self.work_param_.pause_time
        start_tick := tick_now } }
      let self := xTimerChangePeriod self (mul32 self.status_info_.time_left 1000)
      -- `workdone_flag` is set
      callIfSet self self.workdone_cb_ self.workdone_cb_arg_
  | .kPause =>
    let self := TurnOn self
    let self := { self with status_info_ := { self.status_info_ with
      state := SwitcherState.kRun
      time_left := self.work_param_.work_time
      start_tick := tick_now } }
    let self := xTimerChangePeriod self (mul32 self.status_info_.time_left 1000)
    -- `pausedone_flag` is set
    callIfSet self self.pausedone_cb_ self.pausedone_cb_arg_
  | _ => TurnOff self

/-- `std::string MySwitcher::GetWorkStateJson()`: the report, and the state with the
recomputed `time_left`. The `default:` branch of the `switch` is not reachable from the five
enumerators. -/
def GetWorkStateJson (portTICK_PERIOD_MS : Nat) (self : MySwitcher) (tick_now : Nat) :
    String × MySwitcher :=
  let str := "\x7b\"ID\":" ++ toString self.ctrl_pin_
  let state := self.status_info_.state
  let count_left := self.status_info_.count_left
  let self :=
    if state = SwitcherState.kRun then
      { self with status_info_ := { self.status_info_ with
        time_left := sub32 self.work_param_.work_time
          (mul32 (sub32 tick_now self.status_info_.start_tick) portTICK_PERIOD_MS / 1000) } }
    else if state = SwitcherState.kPause then
      { self with status_info_ := { self.status_info_ with
        time_left := sub32 self.work_param_.pause_time
          (mul32 (sub32 tick_now self.status_info_.start_tick) portTICK_PERIOD_MS / 1000) } }
    else self
  let time_left := self.status_info_.time_left
  match state with
  | .kIdle => (str ++ ",\"state\":\"idle\"\x7d", self)
  | .kReady => (str ++ ",\"state\":\"ready\"\x7d", self)
  | .kRun =>
    (str ++ ",\"state\":\"run\"" ++ ",\"time_left\":" ++ toString time_left ++
      ",\"count_left\":" ++ toString count_left ++ "\x7d", self)
  | .kPause =>
    (str ++ ",\"state\":\"pause\"" ++ ",\"time_left\":" ++ toString time_left ++
      ",\"count_left\":" ++ toString count_left ++ "\x7d", self)
  | .kFinished => (str ++ ",\"state\":\"finished\"\x7d", self)

/-- The state after `n` timer expiries, the `k`-th handler reading the tick `ticks k`. -/
def expiries (ticks : Nat → Nat) : Nat → MySwitcher → MySwitcher
  | 0, self => self
  | n + 1, self => SwitchToNextState (expiries ticks n self) (ticks n)

/-- What running `cb(arg)` under the guard `if (cb)` adds to the trace in phase `st`. -/
def event (cb : Callback) (arg : Nat) (st : SwitcherState) : List Invocation :=
  match cb with
  | some f => [{ cb := f, arg := arg, observed := st }]
  | none => []

/-- The registration of one kind of callback: the function and its argument. -/
def registered (self : MySwitcher) : CallbackType → Callback × Nat
  | .kFinishedCallback => (self.finished_cb_, self.finished_cb_arg_)
  | .kRunDoneCallback => (self.workdone_cb_, self.workdone_cb_arg_)
  | .kPauseDoneCallback => (self.pausedone_cb_, self.pausedone_cb_arg_)
  | .kStartCallback => (self.start_cb_, self.start_cb_arg_)
  | .kMaxCallback => (none, 0)

/-- What no operation after construction writes: pin, polarity, timer handle. -/
def wiring (self : MySwitcher) : Int × Bool × Bool :=
  (self.ctrl_pin_, self.active_high_, self.timer_handler_)

/-- The four registrations, in the order start, work done, pause done, finished. -/
def callbacks (self : MySwitcher) : (Callback × Nat) × (Callback × Nat) × (Callback × Nat) ×
    (Callback × Nat) :=
  ((self.start_cb_, self.start_cb_arg_), (self.workdone_cb_, self.workdone_cb_arg_),
    (self.pausedone_cb_, self.pausedone_cb_arg_), (self.finished_cb_, self.finished_cb_arg_))

/-- The `state` value the report shows for a phase. -/
def stateName : SwitcherState → String
  | .kIdle => "idle"
  | .kReady => "ready"
  | .kRun => "run"
  | .kPause => "pause"
  | .kFinished => "finished"

/-! ## The sections of `SetWorkParam` -/

/-- Lines 182-193 of `SetWorkParam`: the validation and the phase test made under
`status_mutex_`, which is released before the parameters are written. `true` when the call
goes on. -/
def SetWorkParam_check (self : MySwitcher) (work pause count : Nat) : Bool :=
  if work = 0 ∨ count = 0 ∨ (pause = 0 ∧ count ≠ 1) then false
  else if self.status_info_.state.toNat > SwitcherState.kReady.toNat then false
  else true

/-- Lines 195-200 of `SetWorkParam`: the parameters are written under `param_mutex_`. -/
def SetWorkParam_store (self : MySwitcher) (work pause count : Nat) : MySwitcher :=
  { self with work_param_ := { work_time := work, pause_time := pause, work_count := count } }

/-- Lines 204-207 of `SetWorkParam`: the phase is set to Ready under `status_mutex_`. -/
def SetWorkParam_commit (self : MySwitcher) : MySwitcher :=
  { self with status_info_ := { self.status_info_ with state := SwitcherState.kReady } }

/-! ## The sections of `Start` and of the timer-expiry handler -/

/-- Lines 61-80 of `Start`: the phase test and the writes made under `status_mutex_`. `true`
when the call goes on. -/
def Start_locked (self : MySwitcher) (tick_now : Nat) : Bool × MySwitcher :=
  if self.status_info_.state ≠ SwitcherState.kReady then
    (false, self)
  else
    let self := { self with status_info_ := { self.status_info_ with
      state := SwitcherState.kRun
      run_time_total := 0
      time_left := self.work_param_.work_time
      count_left := self.work_param_.work_count } }
    let self := { self with status_info_ := { self.status_info_ with start_tick := tick_now } }
    let self := xTimerChangePeriod self (mul32 self.status_info_.time_left 1000)
    (true, self)

/-- Lines 81-88 of `Start`, run after `status_mutex_` is released: `TurnOn`, `xTimerStart` and
the `on_start` callback. -/
def Start_unlocked (self : MySwitcher) : MySwitcher :=
  let self := TurnOn self
  let self := xTimerStart self
  callIfSet self self.start_cb_ self.start_cb_arg_

/-- The three local flags of `SwitchToNextState`. -/
structure HandlerFlags where
  finshed_flag : Bool := false
  workdone_flag : Bool := false
  pausedone_flag : Bool := false
deriving DecidableEq, Repr

/-- Lines 265-307 of `SwitchToNextState`: the transition made under `status_mutex_`, and the
flags it leaves for the callbacks. -/
def SwitchToNextState_locked (self : MySwitcher) (tick_now : Nat) :
    HandlerFlags × MySwitcher :=
  match self.status_info_.state with
  | .kRun =>
    let self := TurnOff self
    let self := { self with status_info_ := { self.status_info_ with
      count_left := sub32 self.status_info_.count_left 1 } }
    let self := { self with status_info_ := { self.status_info_ with
      run_time_total := add32 self.status_info_.run_time_total self.work_param_.work_time } }
    if self.status_info_.count_left = 0 then
      let self := { self with status_info_ := { self.status_info_ with
        state := SwitcherState.kFinished } }
      let self := xTimerStop self
      ({ finshed_flag := true }, self)
    else
      let self := { self with status_info_ := { self.status_info_ with
        state := SwitcherState.kPause
        time_left := self.work_param_.pause_time
        start_tick := tick_now } }
      let self := xTimerChangePeriod self (mul32 self.status_info_.time_left 1000)
      ({ workdone_flag := true }, self)
  | .kPause =>
    let self := TurnOn self
    let self := { self with status_info_ := { self.status_info_ with
      state := SwitcherState.kRun
      time_left := self.work_param_.work_time
      start_tick := tick_now } }
    let self := xTimerChangePeriod self (mul32 self.status_info_.time_left 1000)
    ({ pausedone_flag := true }, self)
  | _ => ({}, TurnOff self)

/-- Lines 310-323 of `SwitchToNextState`, run after `status_mutex_` is released: the callbacks
the flags ask for, and the reset to Ready after `on_finished`. -/
def SwitchToNextState_unlocked (flags : HandlerFlags) (self : MySwitcher) : MySwitcher :=
  let self :=
    if flags.finshed_flag = true ∧ self.finished_cb_.isSome = true then
      let self := callIfSet self self.finished_cb_ self.finished_cb_arg_
      { self with status_info_ := { self.status_info_ with state := SwitcherState.kReady } }
    else self
  let self :=
    if flags.workdone_flag = true then callIfSet self self.workdone_cb_ self.workdone_cb_arg_
    else self
  if flags.pausedone_flag = true then callIfSet self self.pausedone_cb_ self.pausedone_cb_arg_
  else self

/-! ## Sequences of calls -/

/-- One call on the controller, with its arguments and the tick it reads. -/
inductive Op where
  | setWorkParam (work pause count : Nat)
  | setCallback (cb : Callback) (arg : Nat) (type : CallbackType)
  | start (tick_now : Nat)
  | stop (tick_now : Nat)
  | expire (tick_now : Nat)
  | report (tick_now : Nat)
deriving DecidableEq, Repr

/-- The arguments of a call fit their `uint32_t` types. -/
def Op.wellTyped : Op → Prop
  | .setWorkParam work pause count => work < U32 ∧ pause < U32 ∧ count < U32
  | _ => True

instance (op : Op) : Decidable op.wellTyped := by
  cases op <;> unfold Op.wellTyped <;> infer_instance

/-- The state after one call; `expire` is the timer-expiry handler and `report` is
`GetWorkStateJson`. -/
def Op.exec (portTICK_PERIOD_MS : Nat) : Op → MySwitcher → MySwitcher
  | .setWorkParam work pause count, self => (SetWorkParam self work pause count).2
  | .setCallback cb arg type, self => (SetCallback self cb arg type).2
  | .start tick_now, self => (Start self tick_now).2
  | .stop tick_now, self => Stop portTICK_PERIOD_MS self tick_now
  | .expire tick_now, self => SwitchToNextState self tick_now
  | .report tick_now, self => (GetWorkStateJson portTICK_PERIOD_MS self tick_now).2

/-- The state after a sequence of calls, first call first. -/
def execAll (portTICK_PERIOD_MS : Nat) : List Op → MySwitcher → MySwitcher
  | [], self => self
  | op :: ops, self => execAll portTICK_PERIOD_MS ops (op.exec portTICK_PERIOD_MS self)

/-- The output follows the phase: the level last driven is the active one exactly in phase
Running. -/
def outputFollowsPhase (self : MySwitcher) : Prop :=
  self.gpio_level_ = some
    (if self.status_info_.state = SwitcherState.kRun then (if self.active_high_ then 1 else 0)
      else (if self.active_high_ then 0 else 1))

/-- The cycle counters are in range: the stored count is a positive `uint32_t` and, while
Running or Paused, `1 ≤ count_left ≤ work_count`. -/
def countsInRange (self : MySwitcher) : Prop :=
  1 ≤ self.work_param_.work_count ∧ self.work_param_.work_count < U32 ∧
    ((self.status_info_.state = SwitcherState.kRun ∨
        self.status_info_.state = SwitcherState.kPause) →
      1 ≤ self.status_info_.count_left ∧
        self.status_info_.count_left ≤ self.work_param_.work_count)

/-! ## Scenarios -/

/-- A controller just constructed on pin 4 of a target with 49 pins, active high. -/
def fresh : MySwitcher := ctor 49 4 true true

/-- A single-cycle run (work 3 s, no pause, one cycle) started at tick 0, no callback
registered: phase Running, `count_left = 1`. -/
def singleCycleRun : MySwitcher := (Start (SetWorkParam fresh 3 0 1).2 0).2

/-- A Ready controller with parameters (3, 0, 1) and an `on_finished` callback. -/
def readyWithOnFinished : MySwitcher := (OnFinished (SetWorkParam fresh 3 0 1).2 (some 9) 0).2

/-- A long work phase (4294967 s, one cycle) started at tick 0. -/
def longRun : MySwitcher := (Start (SetWorkParam fresh 4294967 0 1).2 0).2

/-- A two-cycle run with a work time of 2147483649 s and a pause of 1 s, started at tick 0 and
followed through its three timer expiries. -/
def longTwoCycles : MySwitcher :=
  expiries (fun _ => 0) 3 (Start (SetWorkParam fresh 2147483649 1 2).2 0).2

/-- A controller constructed on the invalid pin -5: no timer is created. -/
def inert : MySwitcher := ctor 49 (-5) true false

/-- A Ready controller with parameters (3, 0, 1). -/
def readySingle : MySwitcher := (SetWorkParam fresh 3 0 1).2

/-- A run with a work time of 4294968 s, started at tick 0. -/
def overlongRun : MySwitcher := (Start (SetWorkParam fresh 4294968 0 1).2 0).2

/-- A `Start()` on a Ready controller with parameters (3, 0, 1) that has run its locked
section at tick 0, then a whole `Stop()` by another caller at tick 5, then the rest of the
`Start()`. -/
def startOverlappedByStop : MySwitcher :=
  Start_unlocked (Stop 10 (Start_locked readySingle 0).2 5)

/-- A Ready controller with parameters (2, 1, 5). -/
def readyFive : MySwitcher := (SetWorkParam fresh 2 1 5).2

/-- A `SetWorkParam(1, 0, 1)` on `readyFive` that has passed its phase test, then a whole
`Start()` by another caller at tick 0, then the store section of the `SetWorkParam`. -/
def storeAfterStart : MySwitcher := SetWorkParam_store (Start readyFive 0).2 1 0 1

/-- A run (2, 1, 2) with the callbacks 1 (start), 2 (work done), 3 (pause done) and
4 (finished) registered, started at tick 0. -/
def twoCycleRunWithCallbacks : MySwitcher :=
  (Start (SetWorkParam (OnFinished (OnPauseDone (OnWorkDone (OnStart fresh
    (some 1) 0).2 (some 2) 0).2 (some 3) 0).2 (some 4) 0).2 2 1 2).2 0).2

/-- The first work expiry of `twoCycleRunWithCallbacks`: the handler runs its locked section
at tick 200, another caller runs a whole `Stop()` at tick 210, then the handler runs its
callbacks. -/
def handlerOverlappedByStop : MySwitcher :=
  SwitchToNextState_unlocked (SwitchToNextState_locked twoCycleRunWithCallbacks 200).1
    (Stop 10 (SwitchToNextState_locked twoCycleRunWithCallbacks 200).2 210)

end MySwitcher

namespace MySwitcher

/-! ## Setting the parameters -/

/-- C1: `SetWorkParam(work, pause, count)` returns `true` exactly when `work ≠ 0`, `count ≠ 0`,
(`pause ≠ 0` or `count = 1`) and the phase is Idle or Ready; and whenever it returns `true`
the stored parameters are `(work, pause, count)` and the phase is Ready. -/
theorem SetWorkParam_true_iff (self : MySwitcher) (work pause : Nat) (count : Nat) :
    ((SetWorkParam self work pause count).1 = true ↔
      (work ≠ 0 ∧ count ≠ 0 ∧ (pause ≠ 0 ∨ count = 1) ∧
        (self.status_info_.state = SwitcherState.kIdle ∨
          self.status_info_.state = SwitcherState.kReady))) ∧
    ((SetWorkParam self work pause count).1 = true →
      (SetWorkParam self work pause count).2.work_param_ =
          { work_time := work, pause_time := pause, work_count := count } ∧
        (SetWorkParam self work pause count).2.status_info_.state = SwitcherState.kReady) := by
  unfold SetWorkParam
  by_cases hv : work = 0 ∨ count = 0 ∨ (pause = 0 ∧ count ≠ 1)
  · rw [if_pos hv]
    refine ⟨⟨fun h => by simp at h, fun h => ?_⟩, fun h => by simp at h⟩
    exfalso
    obtain ⟨hw, hc, hp, -⟩ := h
    rcases hv with hv | hv | ⟨hv, hv1⟩
    · exact hw hv
    · exact hc hv
    · rcases hp with hp | hp
      · exact hp hv
      · exact hv1 hp
  · rw [if_neg hv]
    have hv2 : work ≠ 0 ∧ count ≠ 0 ∧ (pause ≠ 0 ∨ count = 1) := by
      refine ⟨fun h => hv (Or.inl h), fun h => hv (Or.inr (Or.inl h)), ?_⟩
      by_cases hp : pause = 0
      · right
        by_contra hc
        exact hv (Or.inr (Or.inr ⟨hp, hc⟩))
      · exact Or.inl hp
    cases hs : self.status_info_.state <;>
      simp [SwitcherState.toNat, hv2.1, hv2.2.1, hv2.2.2]

/-- C2: whenever `SetWorkParam` returns `false` (invalid combination, or phase Running, Paused
or Finished) the whole controller state is the one before the call: phase, stored parameters,
run status, output level, timer and registered callbacks. -/
theorem SetWorkParam_false_unchanged (self : MySwitcher) (work pause : Nat) (count : Nat)
    (h : (SetWorkParam self work pause count).1 = false) :
    (SetWorkParam self work pause count).2 = self := by
  unfold SetWorkParam at h ⊢
  split_ifs at h ⊢ with h1 h2
  · rfl
  · rfl

/-- A witness for C2: a zero work time is refused on a fresh controller, which stays as it was. -/
theorem SetWorkParam_false_unchanged_witness :
    (SetWorkParam (ctor 49 4 true true) 0 1 1).1 = false ∧
      (SetWorkParam (ctor 49 4 true true) 0 1 1).2 = ctor 49 4 true true :=
  ⟨by decide, SetWorkParam_false_unchanged (ctor 49 4 true true) 0 1 1 (by decide)⟩

/-! ## Starting -/

/-- C3: `Start()` returns `false` exactly when the phase is not Ready, and then the whole
state (phase, counters, output level, timer, callback trace) is the one before the call. -/
theorem Start_false_iff (self : MySwitcher) (tick_now : Nat) :
    ((Start self tick_now).1 = false ↔ self.status_info_.state ≠ SwitcherState.kReady) ∧
    ((Start self tick_now).1 = false → (Start self tick_now).2 = self) := by
  unfold Start
  by_cases h : self.status_info_.state ≠ SwitcherState.kReady
  · rw [if_pos h]
    exact ⟨⟨fun _ => h, fun _ => rfl⟩, fun _ => rfl⟩
  · rw [if_neg h]
    exact ⟨⟨fun h1 => by simp at h1, fun h1 => absurd h1 h⟩, fun h1 => by simp at h1⟩

/-- C4: from phase Ready with stored parameters `(w, p, c)`, `Start()` returns `true` and
leaves phase Running, the output ON, `count_left = c`, `time_left = w`, `start_tick` the
current tick, `run_time_total = 0`, the timer armed, and the `on_start` callback (if
registered) run exactly once, seeing phase Running; the stored parameters, the registered
callbacks, the pin and the polarity are unchanged. -/
theorem Start_from_ready (self : MySwitcher) (tick_now : Nat)
    (h : self.status_info_.state = SwitcherState.kReady) :
    (Start self tick_now).1 = true ∧
    (Start self tick_now).2.status_info_.state = SwitcherState.kRun ∧
    outputOn (Start self tick_now).2 ∧
    (Start self tick_now).2.status_info_.count_left = self.work_param_.work_count ∧
    (Start self tick_now).2.status_info_.time_left = self.work_param_.work_time ∧
    (Start self tick_now).2.status_info_.start_tick = tick_now ∧
    (Start self tick_now).2.status_info_.run_time_total = 0 ∧
    (Start self tick_now).2.timer_active_ = true ∧
    (Start self tick_now).2.invoked_ = self.invoked_ ++
      (match self.start_cb_ with
        | some f => [{ cb := f, arg := self.start_cb_arg_, observed := SwitcherState.kRun }]
        | none => []) ∧
    (Start self tick_now).2.work_param_ = self.work_param_ ∧
    (Start self tick_now).2.start_cb_ = self.start_cb_ ∧
    (Start self tick_now).2.start_cb_arg_ = self.start_cb_arg_ ∧
    (Start self tick_now).2.workdone_cb_ = self.workdone_cb_ ∧
    (Start self tick_now).2.workdone_cb_arg_ = self.workdone_cb_arg_ ∧
    (Start self tick_now).2.pausedone_cb_ = self.pausedone_cb_ ∧
    (Start self tick_now).2.pausedone_cb_arg_ = self.pausedone_cb_arg_ ∧
    (Start self tick_now).2.finished_cb_ = self.finished_cb_ ∧
    (Start self tick_now).2.finished_cb_arg_ = self.finished_cb_arg_ ∧
    (Start self tick_now).2.ctrl_pin_ = self.ctrl_pin_ ∧
    (Start self tick_now).2.active_high_ = self.active_high_ := by
  unfold Start
  rw [if_neg (by simp [h])]
  cases hcb : self.start_cb_ <;>
    simp [callIfSet, xTimerStart, TurnOn, xTimerChangePeriod, outputOn, hcb]

/-- A witness for C4: a controller on pin 4 with parameters (2, 1, 2) and an `on_start`
callback registered, started at tick 7. -/
theorem Start_from_ready_witness :
    (Start (OnStart (SetWorkParam (ctor 49 4 true true) 2 1 2).2 (some 11) 5).2 7).1 = true ∧
    (Start (OnStart (SetWorkParam (ctor 49 4 true true) 2 1 2).2 (some 11) 5).2 7).2.invoked_ =
      [{ cb := 11, arg := 5, observed := SwitcherState.kRun }] ∧
    (Start (OnStart (SetWorkParam (ctor 49 4 true true) 2 1 2).2 (some 11) 5).2 7).2.status_info_
      = { state := SwitcherState.kRun, run_time_total := 0, time_left := 2, count_left := 2,
          start_tick := 7 } :=
  have h := Start_from_ready (OnStart (SetWorkParam (ctor 49 4 true true) 2 1 2).2 (some 11) 5).2 7
    (by decide)
  ⟨h.1, by decide, by decide⟩

/-! ## The last work expiry -/

/-- C5 (the code at the failing input): a single-cycle run without an `on_finished` callback is
Running with `count_left = 1`; after the timer-expiry handler the output is OFF and
`count_left = 0`, but the phase is Finished, not Ready, and both a following
`SetWorkParam(3, 0, 1)` and a following `Start()` return `false`. -/
theorem SwitchToNextState_stuck_finished :
    singleCycleRun.status_info_.state = SwitcherState.kRun ∧
    singleCycleRun.status_info_.count_left = 1 ∧
    singleCycleRun.finished_cb_ = none ∧
    outputOff (SwitchToNextState singleCycleRun 300) ∧
    (SwitchToNextState singleCycleRun 300).status_info_.count_left = 0 ∧
    (SwitchToNextState singleCycleRun 300).status_info_.state = SwitcherState.kFinished ∧
    (SetWorkParam (SwitchToNextState singleCycleRun 300) 3 0 1).1 = false ∧
    (Start (SwitchToNextState singleCycleRun 300) 300).1 = false := by
  decide

/-! ## Stopping -/

/-- C6 (the code at the failing input): `Stop()` on a freshly constructed controller moves
the phase from Idle to Ready, after which `Start()` succeeds with a work time of 0; and on a
Ready controller with an `on_finished` callback two consecutive `Stop()` calls run the
callback twice. -/
theorem Stop_outside_run_not_noop :
    fresh.status_info_.state = SwitcherState.kIdle ∧
    (Stop 10 fresh 0).status_info_.state = SwitcherState.kReady ∧
    Stop 10 fresh 0 ≠ fresh ∧
    (Start (Stop 10 fresh 0) 0).1 = true ∧
    readyWithOnFinished.status_info_.state = SwitcherState.kReady ∧
    (Stop 10 readyWithOnFinished 5).invoked_ =
      [{ cb := 9, arg := 0, observed := SwitcherState.kReady }] ∧
    (Stop 10 (Stop 10 readyWithOnFinished 5) 6).invoked_ =
      [{ cb := 9, arg := 0, observed := SwitcherState.kReady },
       { cb := 9, arg := 0, observed := SwitcherState.kReady }] := by
  decide

/-- C7 (counterexample): with a tick period of 10 ms, a work phase started at tick 0 and
stopped at tick 429496730 has `((now_tick - start_tick) * tick_period_ms) / 1000 = 4294967`,
yet `Stop()` leaves `run_time_total` at 0: the 32-bit product wraps to 4. -/
theorem Stop_elapsed_wraps :
    longRun.status_info_.state = SwitcherState.kRun ∧
    longRun.status_info_.run_time_total = 0 ∧
    longRun.status_info_.start_tick = 0 ∧
    ((429496730 - longRun.status_info_.start_tick) * 10) / 1000 = 4294967 ∧
    (Stop 10 longRun 429496730).status_info_.run_time_total = 0 ∧
    (Stop 10 longRun 429496730).status_info_.run_time_total ≠
      longRun.status_info_.run_time_total +
        ((429496730 - longRun.status_info_.start_tick) * 10) / 1000 := by
  decide

/-- C7 (amended): from phase Running or Paused, `Stop()` cancels the timer, drives the output
OFF, runs `on_finished` (if registered) exactly once, in phase Finished, and leaves phase
Ready; `count_left` and the stored parameters are unchanged; `run_time_total` is unchanged
when the phase was Paused, and when it was Running it becomes
`(run_time_total + (((now_tick - start_tick) mod 2^32 * tick_period_ms) mod 2^32) / 1000) mod 2^32`,
the stated amount in unsigned 32-bit arithmetic, which is
`run_time_total + ((now_tick - start_tick) * tick_period_ms) / 1000` whenever the tick counter
has not wrapped and neither the product nor the sum reaches `2^32`. -/
theorem Stop_from_run_or_pause (portTICK_PERIOD_MS : Nat) (self : MySwitcher)
    (tick_now : Nat)
    (h : self.status_info_.state = SwitcherState.kRun ∨
      self.status_info_.state = SwitcherState.kPause) :
    (Stop portTICK_PERIOD_MS self tick_now).timer_active_ = false ∧
    outputOff (Stop portTICK_PERIOD_MS self tick_now) ∧
    (Stop portTICK_PERIOD_MS self tick_now).invoked_ = self.invoked_ ++
      (match self.finished_cb_ with
        | some f => [{ cb := f, arg := self.finished_cb_arg_, observed := SwitcherState.kFinished }]
        | none => []) ∧
    (Stop portTICK_PERIOD_MS self tick_now).status_info_.state = SwitcherState.kReady ∧
    (Stop portTICK_PERIOD_MS self tick_now).status_info_.count_left =
      self.status_info_.count_left ∧
    (Stop portTICK_PERIOD_MS self tick_now).work_param_ = self.work_param_ ∧
    (self.status_info_.state = SwitcherState.kPause →
      (Stop portTICK_PERIOD_MS self tick_now).status_info_.run_time_total =
        self.status_info_.run_time_total) ∧
    (self.status_info_.state = SwitcherState.kRun →
      (Stop portTICK_PERIOD_MS self tick_now).status_info_.run_time_total =
        (self.status_info_.run_time_total +
          (((tick_now % 2 ^ 32 + (2 ^ 32 - self.status_info_.start_tick % 2 ^ 32)) % 2 ^ 32 *
            portTICK_PERIOD_MS) % 2 ^ 32) / 1000) % 2 ^ 32) ∧
    (self.status_info_.state = SwitcherState.kRun →
      self.status_info_.start_tick ≤ tick_now → tick_now < 2 ^ 32 →
      (tick_now - self.status_info_.start_tick) * portTICK_PERIOD_MS < 2 ^ 32 →
      self.status_info_.run_time_total +
        ((tick_now - self.status_info_.start_tick) * portTICK_PERIOD_MS) / 1000 < 2 ^ 32 →
      (Stop portTICK_PERIOD_MS self tick_now).status_info_.run_time_total =
        self.status_info_.run_time_total +
          ((tick_now - self.status_info_.start_tick) * portTICK_PERIOD_MS) / 1000) := by
  have hrt : self.status_info_.state = SwitcherState.kRun →
      (Stop portTICK_PERIOD_MS self tick_now).status_info_.run_time_total =
        add32 self.status_info_.run_time_total
          (mul32 (sub32 tick_now self.status_info_.start_tick) portTICK_PERIOD_MS / 1000) := by
    intro hr
    cases hcb : self.finished_cb_ <;> simp [Stop, hr, hcb, callIfSet, TurnOff, xTimerStop]
  have hfr : (Stop portTICK_PERIOD_MS self tick_now).timer_active_ = false ∧
      outputOff (Stop portTICK_PERIOD_MS self tick_now) ∧
      (Stop portTICK_PERIOD_MS self tick_now).invoked_ = self.invoked_ ++
        (match self.finished_cb_ with
          | some f =>
            [{ cb := f, arg := self.finished_cb_arg_, observed := SwitcherState.kFinished }]
          | none => []) ∧
      (Stop portTICK_PERIOD_MS self tick_now).status_info_.state = SwitcherState.kReady ∧
      (Stop portTICK_PERIOD_MS self tick_now).status_info_.count_left =
        self.status_info_.count_left ∧
      (Stop portTICK_PERIOD_MS self tick_now).work_param_ = self.work_param_ ∧
      (self.status_info_.state = SwitcherState.kPause →
        (Stop portTICK_PERIOD_MS self tick_now).status_info_.run_time_total =
          self.status_info_.run_time_total) := by
    rcases h with h | h <;> cases hcb : self.finished_cb_ <;>
      simp [Stop, h, hcb, callIfSet, TurnOff, xTimerStop, outputOff]
  obtain ⟨f1, f2, f3, f4, f5, f6, f7⟩ := hfr
  refine ⟨f1, f2, f3, f4, f5, f6, f7, fun hr => ?_, fun hr h1 h2 h3 h4 => ?_⟩
  · rw [hrt hr]
    rfl
  · rw [hrt hr]
    have e1 : sub32 tick_now self.status_info_.start_tick =
        tick_now - self.status_info_.start_tick := by
      unfold sub32 U32
      omega
    have e2 : mul32 (tick_now - self.status_info_.start_tick) portTICK_PERIOD_MS =
        (tick_now - self.status_info_.start_tick) * portTICK_PERIOD_MS :=
      Nat.mod_eq_of_lt h3
    rw [e1, e2]
    exact Nat.mod_eq_of_lt h4

/-- A witness for C7: a run with parameters (3, 0, 1) started at tick 0 and stopped at tick
150 with a tick period of 10 ms: 1 second of work is accounted. -/
theorem Stop_from_run_or_pause_witness :
    singleCycleRun.status_info_.state = SwitcherState.kRun ∧
    (Stop 10 singleCycleRun 150).status_info_.run_time_total = 1 ∧
    (Stop 10 singleCycleRun 150).status_info_.state = SwitcherState.kReady ∧
    outputOff (Stop 10 singleCycleRun 150) :=
  have h := Stop_from_run_or_pause 10 singleCycleRun 150 (Or.inl (by decide))
  ⟨by decide, by decide, h.2.2.2.1, h.2.1⟩

/-! ## Timer expiries -/

/-- The handler leaves the pin, the polarity and the timer handle alone. -/
theorem SwitchToNextState_wiring (self : MySwitcher) (tick_now : Nat) :
    wiring (SwitchToNextState self tick_now) = wiring self := by
  obtain ⟨pin, ah, ⟨st, rtt, tl, cl, stk⟩, wp, th, scb, sarg, wcb, warg, pcb, parg, fcb, farg,
    lvl, ta, tp, inv⟩ := self
  cases st
  case kRun =>
    by_cases hc : sub32 cl 1 = 0
    · cases fcb <;> simp [SwitchToNextState, hc, callIfSet, xTimerStop, TurnOff, wiring]
    · cases wcb <;> simp [SwitchToNextState, hc, callIfSet, xTimerChangePeriod, TurnOff, wiring]
  case kPause =>
    cases pcb <;> simp [SwitchToNextState, callIfSet, xTimerChangePeriod, TurnOn, wiring]
  all_goals simp [SwitchToNextState, TurnOff, wiring]

/-- The handler leaves the registrations alone. -/
theorem SwitchToNextState_callbacks (self : MySwitcher) (tick_now : Nat) :
    callbacks (SwitchToNextState self tick_now) = callbacks self := by
  obtain ⟨pin, ah, ⟨st, rtt, tl, cl, stk⟩, wp, th, scb, sarg, wcb, warg, pcb, parg, fcb, farg,
    lvl, ta, tp, inv⟩ := self
  cases st
  case kRun =>
    by_cases hc : sub32 cl 1 = 0
    · cases fcb <;> simp [SwitchToNextState, hc, callIfSet, xTimerStop, TurnOff, callbacks]
    · cases wcb <;> simp [SwitchToNextState, hc, callIfSet, xTimerChangePeriod, TurnOff, callbacks]
  case kPause =>
    cases pcb <;> simp [SwitchToNextState, callIfSet, xTimerChangePeriod, TurnOn, callbacks]
  all_goals simp [SwitchToNextState, TurnOff, callbacks]

/-- The handler leaves the stored parameters alone. -/
theorem SwitchToNextState_work_param (self : MySwitcher) (tick_now : Nat) :
    (SwitchToNextState self tick_now).work_param_ = self.work_param_ := by
  obtain ⟨pin, ah, ⟨st, rtt, tl, cl, stk⟩, wp, th, scb, sarg, wcb, warg, pcb, parg, fcb, farg,
    lvl, ta, tp, inv⟩ := self
  cases st
  case kRun =>
    by_cases hc : sub32 cl 1 = 0
    · cases fcb <;> simp [SwitchToNextState, hc, callIfSet, xTimerStop, TurnOff]
    · cases wcb <;> simp [SwitchToNextState, hc, callIfSet, xTimerChangePeriod, TurnOff]
  case kPause =>
    cases pcb <;> simp [SwitchToNextState, callIfSet, xTimerChangePeriod, TurnOn]
  all_goals simp [SwitchToNextState, TurnOff]

/-- A work expiry with further cycles to go: Running to Paused. -/
theorem SwitchToNextState_run_to_pause (self : MySwitcher) (tick_now : Nat)
    (h : self.status_info_.state = SwitcherState.kRun)
    (hc : sub32 self.status_info_.count_left 1 ≠ 0) :
    (SwitchToNextState self tick_now).status_info_ =
      { state := SwitcherState.kPause
        run_time_total := add32 self.status_info_.run_time_total self.work_param_.work_time
        time_left := self.work_param_.pause_time
        count_left := sub32 self.status_info_.count_left 1
        start_tick := tick_now } ∧
    outputOff (SwitchToNextState self tick_now) ∧
    (SwitchToNextState self tick_now).timer_active_ = true ∧
    (SwitchToNextState self tick_now).timer_period_ms_ = mul32 self.work_param_.pause_time 1000 ∧
    (SwitchToNextState self tick_now).invoked_ = self.invoked_ ++
      event self.workdone_cb_ self.workdone_cb_arg_ SwitcherState.kPause := by
  obtain ⟨pin, ah, ⟨st, rtt, tl, cl, stk⟩, wp, th, scb, sarg, wcb, warg, pcb, parg, fcb, farg,
    lvl, ta, tp, inv⟩ := self
  simp only at h hc
  subst h
  cases wcb <;>
    simp [SwitchToNextState, hc, callIfSet, xTimerChangePeriod, TurnOff, outputOff, event]

/-- The last work expiry: Running to Finished, and on to Ready when `on_finished` is set. -/
theorem SwitchToNextState_run_to_finished (self : MySwitcher) (tick_now : Nat)
    (h : self.status_info_.state = SwitcherState.kRun)
    (hc : sub32 self.status_info_.count_left 1 = 0) :
    (SwitchToNextState self tick_now).status_info_ =
      { state := if self.finished_cb_.isSome then SwitcherState.kReady
          else SwitcherState.kFinished
        run_time_total := add32 self.status_info_.run_time_total self.work_param_.work_time
        time_left := self.status_info_.time_left
        count_left := 0
        start_tick := self.status_info_.start_tick } ∧
    outputOff (SwitchToNextState self tick_now) ∧
    (SwitchToNextState self tick_now).timer_active_ = false ∧
    (SwitchToNextState self tick_now).timer_period_ms_ = self.timer_period_ms_ ∧
    (SwitchToNextState self tick_now).invoked_ = self.invoked_ ++
      event self.finished_cb_ self.finished_cb_arg_ SwitcherState.kFinished := by
  obtain ⟨pin, ah, ⟨st, rtt, tl, cl, stk⟩, wp, th, scb, sarg, wcb, warg, pcb, parg, fcb, farg,
    lvl, ta, tp, inv⟩ := self
  simp only at h hc
  subst h
  cases fcb <;>
    simp [SwitchToNextState, hc, callIfSet, xTimerStop, TurnOff, outputOff, event]

/-- A pause expiry: Paused to Running. -/
theorem SwitchToNextState_pause_to_run (self : MySwitcher) (tick_now : Nat)
    (h : self.status_info_.state = SwitcherState.kPause) :
    (SwitchToNextState self tick_now).status_info_ =
      { state := SwitcherState.kRun
        run_time_total := self.status_info_.run_time_total
        time_left := self.work_param_.work_time
        count_left := self.status_info_.count_left
        start_tick := tick_now } ∧
    outputOn (SwitchToNextState self tick_now) ∧
    (SwitchToNextState self tick_now).timer_active_ = true ∧
    (SwitchToNextState self tick_now).timer_period_ms_ = mul32 self.work_param_.work_time 1000 ∧
    (SwitchToNextState self tick_now).invoked_ = self.invoked_ ++
      event self.pausedone_cb_ self.pausedone_cb_arg_ SwitcherState.kRun := by
  obtain ⟨pin, ah, ⟨st, rtt, tl, cl, stk⟩, wp, th, scb, sarg, wcb, warg, pcb, parg, fcb, farg,
    lvl, ta, tp, inv⟩ := self
  simp only at h
  subst h
  cases pcb <;>
    simp [SwitchToNextState, callIfSet, xTimerChangePeriod, TurnOn, outputOn, event]

/-! ## A whole run -/

/-- What an accepted `SetWorkParam` leaves behind. -/
theorem SetWorkParam_accepted (self : MySwitcher) (work pause count : Nat)
    (h : (SetWorkParam self work pause count).1 = true) :
    count ≠ 0 ∧
    (SetWorkParam self work pause count).2.status_info_.state = SwitcherState.kReady ∧
    (SetWorkParam self work pause count).2.work_param_ =
      { work_time := work, pause_time := pause, work_count := count } ∧
    callbacks (SetWorkParam self work pause count).2 = callbacks self ∧
    (SetWorkParam self work pause count).2.invoked_ = self.invoked_ := by
  unfold SetWorkParam at h ⊢
  split_ifs at h ⊢ with h1 h2
  refine ⟨fun h0 => h1 (Or.inr (Or.inl h0)), rfl, rfl, rfl, rfl⟩

/-- What `Start()` leaves behind when the phase is Ready. -/
theorem Start_ready (self : MySwitcher) (tick_now : Nat)
    (h : self.status_info_.state = SwitcherState.kReady) :
    (Start self tick_now).2.status_info_.state = SwitcherState.kRun ∧
    (Start self tick_now).2.status_info_.count_left = self.work_param_.work_count ∧
    (Start self tick_now).2.status_info_.run_time_total = 0 ∧
    outputOn (Start self tick_now).2 ∧
    (Start self tick_now).2.work_param_ = self.work_param_ ∧
    callbacks (Start self tick_now).2 = callbacks self ∧
    (Start self tick_now).2.invoked_ = self.invoked_ ++
      event self.start_cb_ self.start_cb_arg_ SwitcherState.kRun := by
  obtain ⟨pin, ah, ⟨st, rtt, tl, cl, stk⟩, wp, th, scb, sarg, wcb, warg, pcb, parg, fcb, farg,
    lvl, ta, tp, inv⟩ := self
  simp only at h
  subst h
  cases scb <;>
    simp [Start, callIfSet, xTimerStart, TurnOn, xTimerChangePeriod, outputOn, callbacks, event]

/-- After `j < c` complete work/pause cycles of a run of `c` cycles the controller is Running
again, with `c - j` cycles left and `j` work times accounted. -/
theorem expiries_even (s1 : MySwitcher) (ticks : Nat → Nat) (c : Nat)
    (hrun : s1.status_info_.state = SwitcherState.kRun)
    (hcl : s1.status_info_.count_left = c) (hc : c < U32)
    (hrt : s1.status_info_.run_time_total = 0) (hon : outputOn s1) (j : Nat) (hj : j < c) :
    (expiries ticks (2 * j) s1).status_info_.state = SwitcherState.kRun ∧
    (expiries ticks (2 * j) s1).status_info_.count_left = c - j ∧
    (expiries ticks (2 * j) s1).status_info_.run_time_total =
      (j * s1.work_param_.work_time) % U32 ∧
    outputOn (expiries ticks (2 * j) s1) ∧
    (expiries ticks (2 * j) s1).work_param_ = s1.work_param_ ∧
    callbacks (expiries ticks (2 * j) s1) = callbacks s1 ∧
    (expiries ticks (2 * j) s1).invoked_ = s1.invoked_ ++
      (List.replicate j
        (event s1.workdone_cb_ s1.workdone_cb_arg_ SwitcherState.kPause ++
          event s1.pausedone_cb_ s1.pausedone_cb_arg_ SwitcherState.kRun)).flatten := by
  induction j with
  | zero =>
    refine ⟨hrun, by simpa using hcl, ?_, hon, rfl, rfl, by simp [expiries]⟩
    simp [expiries, hrt, U32]
  | succ j ih =>
    obtain ⟨i1, i2, i3, i4, i5, i6, i7⟩ := ih (by omega)
    have hne : sub32 (expiries ticks (2 * j) s1).status_info_.count_left 1 ≠ 0 := by
      rw [i2]
      unfold sub32 U32
      unfold U32 at hc
      omega
    obtain ⟨a1, -, -, -, a5⟩ :=
      SwitchToNextState_run_to_pause (expiries ticks (2 * j) s1) (ticks (2 * j)) i1 hne
    have hp : (SwitchToNextState (expiries ticks (2 * j) s1) (ticks (2 * j))).status_info_.state
        = SwitcherState.kPause := by rw [a1]
    obtain ⟨b1, b2, -, -, b5⟩ :=
      SwitchToNextState_pause_to_run
        (SwitchToNextState (expiries ticks (2 * j) s1) (ticks (2 * j))) (ticks (2 * j + 1)) hp
    have hw1 := SwitchToNextState_work_param (expiries ticks (2 * j) s1) (ticks (2 * j))
    have hw2 := SwitchToNextState_work_param
      (SwitchToNextState (expiries ticks (2 * j) s1) (ticks (2 * j))) (ticks (2 * j + 1))
    have hk1 := SwitchToNextState_callbacks (expiries ticks (2 * j) s1) (ticks (2 * j))
    have hk2 := SwitchToNextState_callbacks
      (SwitchToNextState (expiries ticks (2 * j) s1) (ticks (2 * j))) (ticks (2 * j + 1))
    have e : expiries ticks (2 * (j + 1)) s1 =
        SwitchToNextState (SwitchToNextState (expiries ticks (2 * j) s1) (ticks (2 * j)))
          (ticks (2 * j + 1)) := rfl
    have hcb1 : (expiries ticks (2 * j) s1).workdone_cb_ = s1.workdone_cb_ ∧
        (expiries ticks (2 * j) s1).workdone_cb_arg_ = s1.workdone_cb_arg_ := by
      have := i6
      simp only [callbacks, Prod.mk.injEq] at this
      exact this.2.1
    have hcb2 : (SwitchToNextState (expiries ticks (2 * j) s1) (ticks (2 * j))).pausedone_cb_ =
          s1.pausedone_cb_ ∧
        (SwitchToNextState (expiries ticks (2 * j) s1) (ticks (2 * j))).pausedone_cb_arg_ =
          s1.pausedone_cb_arg_ := by
      have := hk1.trans i6
      simp only [callbacks, Prod.mk.injEq] at this
      exact this.2.2.1
    rw [e]
    refine ⟨by rw [b1], ?_, ?_, b2, by rw [hw2, hw1, i5], by rw [hk2, hk1, i6], ?_⟩
    · rw [b1, a1]
      show sub32 (expiries ticks (2 * j) s1).status_info_.count_left 1 = c - (j + 1)
      rw [i2]
      unfold sub32 U32
      unfold U32 at hc
      omega
    · rw [b1, a1]
      show add32 (expiries ticks (2 * j) s1).status_info_.run_time_total
        (expiries ticks (2 * j) s1).work_param_.work_time = _
      rw [i3, i5]
      unfold add32
      rw [Nat.succ_mul, Nat.add_mod, Nat.mod_mod, ← Nat.add_mod]
    · rw [b5, a5, i7, hcb1.1, hcb1.2, hcb2.1, hcb2.2, List.replicate_succ', List.flatten_append]
      simp [List.append_assoc]

/-- After the work expiry that follows `j` complete cycles, with further cycles to go, the
controller is Paused with the output OFF. -/
theorem expiries_odd (s1 : MySwitcher) (ticks : Nat → Nat) (c : Nat)
    (hrun : s1.status_info_.state = SwitcherState.kRun)
    (hcl : s1.status_info_.count_left = c) (hc : c < U32)
    (hrt : s1.status_info_.run_time_total = 0) (hon : outputOn s1) (j : Nat) (hj : j + 1 < c) :
    (expiries ticks (2 * j + 1) s1).status_info_.state = SwitcherState.kPause ∧
    outputOff (expiries ticks (2 * j + 1) s1) := by
  obtain ⟨i1, i2, -⟩ := expiries_even s1 ticks c hrun hcl hc hrt hon j (by omega)
  have hne : sub32 (expiries ticks (2 * j) s1).status_info_.count_left 1 ≠ 0 := by
    rw [i2]
    unfold sub32 U32
    unfold U32 at hc
    omega
  obtain ⟨a1, a2, -⟩ :=
    SwitchToNextState_run_to_pause (expiries ticks (2 * j) s1) (ticks (2 * j)) i1 hne
  have e : expiries ticks (2 * j + 1) s1 =
      SwitchToNextState (expiries ticks (2 * j) s1) (ticks (2 * j)) := rfl
  rw [e]
  exact ⟨by rw [a1], a2⟩

/-- The last of the `2 * c - 1` expiries of a run of `c` cycles ends the run. -/
theorem expiries_last (s1 : MySwitcher) (ticks : Nat → Nat) (c : Nat)
    (hrun : s1.status_info_.state = SwitcherState.kRun)
    (hcl : s1.status_info_.count_left = c) (hc : c < U32) (hc0 : c ≠ 0)
    (hrt : s1.status_info_.run_time_total = 0) (hon : outputOn s1) :
    (expiries ticks (2 * c - 1) s1).status_info_.state =
      (if s1.finished_cb_.isSome then SwitcherState.kReady else SwitcherState.kFinished) ∧
    (expiries ticks (2 * c - 1) s1).status_info_.count_left = 0 ∧
    (expiries ticks (2 * c - 1) s1).status_info_.run_time_total =
      (c * s1.work_param_.work_time) % U32 ∧
    outputOff (expiries ticks (2 * c - 1) s1) ∧
    (expiries ticks (2 * c - 1) s1).invoked_ = s1.invoked_ ++
      (List.replicate (c - 1)
        (event s1.workdone_cb_ s1.workdone_cb_arg_ SwitcherState.kPause ++
          event s1.pausedone_cb_ s1.pausedone_cb_arg_ SwitcherState.kRun)).flatten ++
      event s1.finished_cb_ s1.finished_cb_arg_ SwitcherState.kFinished := by
  obtain ⟨j, rfl⟩ : ∃ j, c = j + 1 := Nat.exists_eq_succ_of_ne_zero hc0
  obtain ⟨i1, i2, i3, -, i5, i6, i7⟩ :=
    expiries_even s1 ticks (j + 1) hrun hcl hc hrt hon j (by omega)
  have hz : sub32 (expiries ticks (2 * j) s1).status_info_.count_left 1 = 0 := by
    rw [i2]
    unfold sub32 U32
    omega
  obtain ⟨a1, a2, -, -, a5⟩ :=
    SwitchToNextState_run_to_finished (expiries ticks (2 * j) s1) (ticks (2 * j)) i1 hz
  have e : expiries ticks (2 * (j + 1) - 1) s1 =
      SwitchToNextState (expiries ticks (2 * j) s1) (ticks (2 * j)) := rfl
  have hcb : (expiries ticks (2 * j) s1).finished_cb_ = s1.finished_cb_ ∧
      (expiries ticks (2 * j) s1).finished_cb_arg_ = s1.finished_cb_arg_ := by
    have := i6
    simp only [callbacks, Prod.mk.injEq] at this
    exact this.2.2.2
  rw [e]
  refine ⟨by rw [a1, hcb.1], by rw [a1], ?_, a2, ?_⟩
  · rw [a1]
    show add32 (expiries ticks (2 * j) s1).status_info_.run_time_total
      (expiries ticks (2 * j) s1).work_param_.work_time = _
    rw [i3, i5]
    unfold add32
    rw [Nat.succ_mul, Nat.add_mod, Nat.mod_mod, ← Nat.add_mod]
  · rw [a5, i7, hcb.1, hcb.2]
    simp

/-- C8 (counterexample): the triple (2147483649, 1, 2) is accepted, and after `Start()` and
`2 * 2 - 1 = 3` expiries `GetRunTime()` returns 2, not `2 * 2147483649`: the sum wraps at
`2^32`. -/
theorem GetRunTime_wraps :
    (SetWorkParam fresh 2147483649 1 2).1 = true ∧
    GetRunTime longTwoCycles = 2 ∧
    GetRunTime longTwoCycles ≠ 2 * 2147483649 := by
  decide

/-- C8 (amended): for every triple `(w, p, c)` accepted by `SetWorkParam`, after `Start()`
followed by exactly `2 * c - 1` timer expiries and no other call, `GetRunTime()` returns
`(c * w) mod 2^32` (pause time is not counted), which is `c * w` whenever `c * w < 2^32`. -/
theorem GetRunTime_after_full_run (self : MySwitcher) (w p c t0 : Nat) (ticks : Nat → Nat)
    (hc : c < 2 ^ 32) (hset : (SetWorkParam self w p c).1 = true) :
    GetRunTime (expiries ticks (2 * c - 1) (Start (SetWorkParam self w p c).2 t0).2) =
      (c * w) % 2 ^ 32 ∧
    (c * w < 2 ^ 32 →
      GetRunTime (expiries ticks (2 * c - 1) (Start (SetWorkParam self w p c).2 t0).2) =
        c * w) := by
  obtain ⟨hc0, hready, hwp, -, -⟩ := SetWorkParam_accepted self w p c hset
  obtain ⟨r1, r2, r3, r4, r5, -, -⟩ := Start_ready (SetWorkParam self w p c).2 t0 hready
  have hcl : (Start (SetWorkParam self w p c).2 t0).2.status_info_.count_left = c := by
    rw [r2, hwp]
  have hlast := (expiries_last (Start (SetWorkParam self w p c).2 t0).2 ticks c r1 hcl
    (by unfold U32; omega) hc0 r3 r4).2.2.1
  have hw : (Start (SetWorkParam self w p c).2 t0).2.work_param_.work_time = w := by
    rw [r5, hwp]
  rw [hw] at hlast
  have key : GetRunTime (expiries ticks (2 * c - 1) (Start (SetWorkParam self w p c).2 t0).2) =
      (c * w) % 2 ^ 32 := hlast
  exact ⟨key, fun hlt => by rw [key, Nat.mod_eq_of_lt hlt]⟩

/-- A witness for C8: the runs (2, 1, 2) and (3, 0, 1) on a fresh controller account 4 and 3
seconds. -/
theorem GetRunTime_after_full_run_witness :
    GetRunTime (expiries (fun k => 100 * k) (2 * 2 - 1) (Start (SetWorkParam fresh 2 1 2).2 0).2)
      = 4 ∧
    GetRunTime (expiries (fun k => 100 * k) (2 * 1 - 1) (Start (SetWorkParam fresh 3 0 1).2 0).2)
      = 3 :=
  ⟨(GetRunTime_after_full_run fresh 2 1 2 0 (fun k => 100 * k) (by decide) (by decide)).2
      (by decide),
    (GetRunTime_after_full_run fresh 3 0 1 0 (fun k => 100 * k) (by decide) (by decide)).2
      (by decide)⟩

/-- C9: for every accepted `(w, p, c)` with all four callbacks registered, `Start()` followed
by `2 * c - 1` timer expiries runs the callbacks in exactly the order `on_start`, then
(`on_work_done`, `on_pause_done`) `c - 1` times, then `on_finished` once; after the `k`-th
expiry (`k < 2 * c - 1`) the phase is Paused with the output OFF when `k` is odd and Running
with the output ON when `k` is even; after the last expiry the phase is Ready with the output
OFF; and for `c = 1` the single work expiry runs `on_finished` right after `on_start`, with no
pause phase. -/
theorem full_run_callback_order (self : MySwitcher) (w p c t0 : Nat) (ticks : Nat → Nat)
    (fs fw fp ff : Nat)
    (hc : c < 2 ^ 32) (hset : (SetWorkParam self w p c).1 = true)
    (hs : self.start_cb_ = some fs) (hw : self.workdone_cb_ = some fw)
    (hp : self.pausedone_cb_ = some fp) (hf : self.finished_cb_ = some ff) :
    (expiries ticks (2 * c - 1) (Start (SetWorkParam self w p c).2 t0).2).invoked_ =
      self.invoked_ ++
        [{ cb := fs, arg := self.start_cb_arg_, observed := SwitcherState.kRun }] ++
        (List.replicate (c - 1)
          [{ cb := fw, arg := self.workdone_cb_arg_, observed := SwitcherState.kPause },
           { cb := fp, arg := self.pausedone_cb_arg_, observed := SwitcherState.kRun }]).flatten ++
        [{ cb := ff, arg := self.finished_cb_arg_, observed := SwitcherState.kFinished }] ∧
    (∀ k, k < 2 * c - 1 →
      (k % 2 = 1 →
        (expiries ticks k (Start (SetWorkParam self w p c).2 t0).2).status_info_.state =
            SwitcherState.kPause ∧
          outputOff (expiries ticks k (Start (SetWorkParam self w p c).2 t0).2)) ∧
      (k % 2 = 0 →
        (expiries ticks k (Start (SetWorkParam self w p c).2 t0).2).status_info_.state =
            SwitcherState.kRun ∧
          outputOn (expiries ticks k (Start (SetWorkParam self w p c).2 t0).2))) ∧
    (expiries ticks (2 * c - 1) (Start (SetWorkParam self w p c).2 t0).2).status_info_.state =
      SwitcherState.kReady ∧
    outputOff (expiries ticks (2 * c - 1) (Start (SetWorkParam self w p c).2 t0).2) ∧
    (c = 1 →
      (expiries ticks 1 (Start (SetWorkParam self w p c).2 t0).2).invoked_ =
        self.invoked_ ++
          [{ cb := fs, arg := self.start_cb_arg_, observed := SwitcherState.kRun },
           { cb := ff, arg := self.finished_cb_arg_, observed := SwitcherState.kFinished }] ∧
      (expiries ticks 1 (Start (SetWorkParam self w p c).2 t0).2).status_info_.state =
        SwitcherState.kReady) := by
  obtain ⟨hc0, hready, hwp, hcbs, hinv⟩ := SetWorkParam_accepted self w p c hset
  obtain ⟨r1, r2, r3, r4, -, r6, r7⟩ := Start_ready (SetWorkParam self w p c).2 t0 hready
  have hcl : (Start (SetWorkParam self w p c).2 t0).2.status_info_.count_left = c := by
    rw [r2, hwp]
  have hcU : c < U32 := by unfold U32; omega
  have hk : callbacks (Start (SetWorkParam self w p c).2 t0).2 = callbacks self := r6.trans hcbs
  have hk2 := hcbs
  simp only [callbacks, Prod.mk.injEq] at hk hk2
  obtain ⟨⟨k1, k2⟩, ⟨k3, k4⟩, ⟨k5, k6⟩, k7, k8⟩ := hk
  obtain ⟨l1, l2, l3, l4, l5⟩ :=
    expiries_last (Start (SetWorkParam self w p c).2 t0).2 ticks c r1 hcl hcU hc0 r3 r4
  have hfinal : (expiries ticks (2 * c - 1) (Start (SetWorkParam self w p c).2 t0).2).invoked_ =
      self.invoked_ ++
        [{ cb := fs, arg := self.start_cb_arg_, observed := SwitcherState.kRun }] ++
        (List.replicate (c - 1)
          [{ cb := fw, arg := self.workdone_cb_arg_, observed := SwitcherState.kPause },
           { cb := fp, arg := self.pausedone_cb_arg_, observed := SwitcherState.kRun }]).flatten ++
        [{ cb := ff, arg := self.finished_cb_arg_, observed := SwitcherState.kFinished }] := by
    rw [l5, r7, hinv, k3, k4, k5, k6, k7, k8, hk2.1.1, hk2.1.2, hs, hw, hp, hf]
    simp [event]
  refine ⟨hfinal, ?_, ?_, l4, ?_⟩
  · intro k hk
    constructor
    · intro hodd
      obtain ⟨j, rfl⟩ : ∃ j, k = 2 * j + 1 := ⟨k / 2, by omega⟩
      exact expiries_odd _ ticks c r1 hcl hcU r3 r4 j (by omega)
    · intro heven
      obtain ⟨j, rfl⟩ : ∃ j, k = 2 * j := ⟨k / 2, by omega⟩
      obtain ⟨e1, -, -, e4, -⟩ := expiries_even _ ticks c r1 hcl hcU r3 r4 j (by omega)
      exact ⟨e1, e4⟩
  · rw [l1, k7, hf]
    rfl
  · intro h1
    subst h1
    have hfinal1 := hfinal
    have l1a := l1
    simp only [show 2 * 1 - 1 = 1 from rfl] at hfinal1 l1a
    refine ⟨?_, ?_⟩
    · rw [hfinal1]
      simp
    · rw [l1a, k7, hf]
      rfl

/-- A witness for C9: the run (2, 1, 2) on a fresh controller with the callbacks 1, 2, 3, 4
registered invokes 1, 2, 3, 4 in this order. -/
theorem full_run_callback_order_witness :
    (expiries (fun k => 100 * k) (2 * 2 - 1)
      (Start (SetWorkParam (OnFinished (OnPauseDone (OnWorkDone (OnStart fresh
        (some 1) 0).2 (some 2) 0).2 (some 3) 0).2 (some 4) 0).2 2 1 2).2 0).2).invoked_ =
      [] ++ [{ cb := 1, arg := 0, observed := SwitcherState.kRun }] ++
        (List.replicate (2 - 1)
          [{ cb := 2, arg := 0, observed := SwitcherState.kPause },
           { cb := 3, arg := 0, observed := SwitcherState.kRun }]).flatten ++
        [{ cb := 4, arg := 0, observed := SwitcherState.kFinished }] :=
  (full_run_callback_order (OnFinished (OnPauseDone (OnWorkDone (OnStart fresh
      (some 1) 0).2 (some 2) 0).2 (some 3) 0).2 (some 4) 0).2 2 1 2 0 (fun k => 100 * k)
    1 2 3 4 (by decide) (by decide) (by decide) (by decide) (by decide) (by decide)).1

/-! ## Registering callbacks -/

/-- C10: for each of the four kinds of callback, registering returns `false` exactly when the
phase is Running, Paused or Finished, and then the state, with every registration, is the one
before the call; when it returns `true`, the registration of the chosen kind is the new
callback and argument (an empty callback included), the three other registrations, the phase,
the run status and the parameters are unchanged. `OnStart`, `OnWorkDone`, `OnPauseDone` and
`OnFinished` are `SetCallback` at the four kinds. -/
theorem SetCallback_spec (self : MySwitcher) (cb : Callback) (arg : Nat) (type : CallbackType)
    (h : type ≠ CallbackType.kMaxCallback) :
    ((SetCallback self cb arg type).1 = false ↔
      (self.status_info_.state = SwitcherState.kRun ∨
        self.status_info_.state = SwitcherState.kPause ∨
        self.status_info_.state = SwitcherState.kFinished)) ∧
    ((SetCallback self cb arg type).1 = false → (SetCallback self cb arg type).2 = self) ∧
    ((SetCallback self cb arg type).1 = true →
      registered (SetCallback self cb arg type).2 type = (cb, arg) ∧
      (∀ other : CallbackType, other ≠ type →
        registered (SetCallback self cb arg type).2 other = registered self other) ∧
      (SetCallback self cb arg type).2.status_info_ = self.status_info_ ∧
      (SetCallback self cb arg type).2.work_param_ = self.work_param_) ∧
    OnStart self cb arg = SetCallback self cb arg CallbackType.kStartCallback ∧
    OnWorkDone self cb arg = SetCallback self cb arg CallbackType.kRunDoneCallback ∧
    OnPauseDone self cb arg = SetCallback self cb arg CallbackType.kPauseDoneCallback ∧
    OnFinished self cb arg = SetCallback self cb arg CallbackType.kFinishedCallback := by
  refine ⟨?_, ?_, ?_, rfl, rfl, rfl, rfl⟩
  · cases type <;> cases hs : self.status_info_.state <;>
      simp_all [SetCallback, CallbackType.toNat, SwitcherState.toNat]
  · cases type <;> cases hs : self.status_info_.state <;>
      simp_all [SetCallback, CallbackType.toNat, SwitcherState.toNat]
  · cases type <;> cases hs : self.status_info_.state <;>
      simp_all [SetCallback, CallbackType.toNat, SwitcherState.toNat, registered] <;>
      intro other ho <;> cases other <;> simp_all

/-- A witness for C10: registering `on_work_done` on a fresh controller succeeds, and on a
running controller it is refused. -/
theorem SetCallback_spec_witness :
    (SetCallback fresh (some 3) 8 CallbackType.kRunDoneCallback).1 = true ∧
    registered (SetCallback fresh (some 3) 8 CallbackType.kRunDoneCallback).2
      CallbackType.kRunDoneCallback = (some 3, 8) ∧
    (SetCallback singleCycleRun (some 3) 8 CallbackType.kRunDoneCallback).1 = false :=
  have h := SetCallback_spec fresh (some 3) 8 CallbackType.kRunDoneCallback (by decide)
  ⟨by decide, (h.2.2.1 (by decide)).1, by decide⟩

/-! ## The status report -/

/-- C11 (the code at the failing input): a work phase of 3 s started at tick 0 and still
Running at tick 450 (4 whole seconds later, with a tick period of 10 ms) reports a `time_left`
of 4294967295: the unsigned subtraction `3 - 4` wraps, it is not clamped at 0 and exceeds
the configured 3 s. -/
theorem GetWorkStateJson_time_left_wraps :
    singleCycleRun.status_info_.state = SwitcherState.kRun ∧
    singleCycleRun.work_param_.work_time = 3 ∧
    singleCycleRun.status_info_.start_tick = 0 ∧
    (450 - singleCycleRun.status_info_.start_tick) * 10 / 1000 = 4 ∧
    (GetWorkStateJson 10 singleCycleRun 450).2.status_info_.time_left = 4294967295 ∧
    singleCycleRun.work_param_.work_time <
      (GetWorkStateJson 10 singleCycleRun 450).2.status_info_.time_left := by
  decide

/-- C12: the report is `{"ID":<pin>,"state":"<name>"` followed, exactly when the phase is
Running or Paused, by `,"time_left":<time_left>,"count_left":<count_left>`, and closed by `}`;
`<name>` is idle, ready, run, pause or finished for the phases Idle, Ready, Running, Paused
and Finished, `<count_left>` is the stored number of cycles left and `<time_left>` the
recomputed time left. -/
theorem GetWorkStateJson_format (portTICK_PERIOD_MS : Nat) (self : MySwitcher)
    (tick_now : Nat) :
    (GetWorkStateJson portTICK_PERIOD_MS self tick_now).1 =
      "\x7b\"ID\":" ++ toString self.ctrl_pin_ ++ ",\"state\":\"" ++
        stateName self.status_info_.state ++ "\"" ++
        (if self.status_info_.state = SwitcherState.kRun ∨
            self.status_info_.state = SwitcherState.kPause then
          ",\"time_left\":" ++
            toString (GetWorkStateJson portTICK_PERIOD_MS self tick_now).2.status_info_.time_left
            ++ ",\"count_left\":" ++ toString self.status_info_.count_left
        else "") ++ "\x7d" ∧
    stateName SwitcherState.kIdle = "idle" ∧
    stateName SwitcherState.kReady = "ready" ∧
    stateName SwitcherState.kRun = "run" ∧
    stateName SwitcherState.kPause = "pause" ∧
    stateName SwitcherState.kFinished = "finished" := by
  refine ⟨?_, rfl, rfl, rfl, rfl, rfl⟩
  obtain ⟨pin, ah, ⟨st, rtt, tl, cl, stk⟩, wp, th, scb, sarg, wcb, warg, pcb, parg, fcb, farg,
    lvl, ta, tp, inv⟩ := self
  cases st <;> simp [GetWorkStateJson, stateName, String.append_assoc] <;> rfl

/-- C19 (the code at the failing input): two reports on the same Running work phase of 3 s
started at tick 0, with a tick period of 10 ms: the earlier one, at tick 150, shows a
`time_left` of 2, the later one, at tick 450, shows 4294967295, which is larger. -/
theorem GetWorkStateJson_time_left_grows :
    singleCycleRun.status_info_.state = SwitcherState.kRun ∧
    (GetWorkStateJson 10 singleCycleRun 150).2.status_info_.state = SwitcherState.kRun ∧
    (GetWorkStateJson 10 singleCycleRun 150).2.status_info_.time_left = 2 ∧
    (GetWorkStateJson 10 (GetWorkStateJson 10 singleCycleRun 150).2
      450).2.status_info_.time_left = 4294967295 ∧
    (GetWorkStateJson 10 singleCycleRun 150).2.status_info_.time_left <
      (GetWorkStateJson 10 (GetWorkStateJson 10 singleCycleRun 150).2
        450).2.status_info_.time_left := by
  decide

/-! ## Reaching Ready without parameters, and the inert instance -/

/-- C13 (the code at the failing input): on a fresh controller `Stop()` alone moves the phase
from Idle to Ready while the stored work time is still 0, and the following `Start()` returns
`true` and leaves the controller Running with a work time of 0. -/
theorem Stop_reaches_ready_without_parameters :
    fresh.status_info_.state = SwitcherState.kIdle ∧
    (execAll 10 [Op.stop 0] fresh).status_info_.state = SwitcherState.kReady ∧
    (execAll 10 [Op.stop 0] fresh).work_param_.work_time = 0 ∧
    (Start (execAll 10 [Op.stop 0] fresh) 1).1 = true ∧
    (execAll 10 [Op.stop 0, Op.start 1] fresh).status_info_.state = SwitcherState.kRun ∧
    (execAll 10 [Op.stop 0, Op.start 1] fresh).work_param_.work_time = 0 := by
  decide

/-- C15 (the code at the failing input): a controller constructed on the invalid pin -5 has
no timer and pin `GPIO_NUM_NC`, yet `SetWorkParam(1, 0, 1)` returns `true` and moves it to
Ready, `OnStart` returns `true`, and `Start()` returns `true`, leaves it Running and sends a
level to the pin and a start to the timer that does not exist. -/
theorem inert_instance_accepts_calls :
    inert.ctrl_pin_ = GPIO_NUM_NC ∧
    inert.timer_handler_ = false ∧
    inert.status_info_.state = SwitcherState.kIdle ∧
    inert.gpio_level_ = none ∧
    inert.timer_active_ = false ∧
    (SetWorkParam inert 1 0 1).1 = true ∧
    (SetWorkParam inert 1 0 1).2.status_info_.state = SwitcherState.kReady ∧
    (OnStart (SetWorkParam inert 1 0 1).2 (some 7) 0).1 = true ∧
    (Start (SetWorkParam inert 1 0 1).2 0).1 = true ∧
    (Start (SetWorkParam inert 1 0 1).2 0).2.status_info_.state = SwitcherState.kRun ∧
    (Start (SetWorkParam inert 1 0 1).2 0).2.timer_handler_ = false ∧
    (Start (SetWorkParam inert 1 0 1).2 0).2.gpio_level_ = some 1 ∧
    (Start (SetWorkParam inert 1 0 1).2 0).2.timer_active_ = true := by
  decide

/-! ## A `SetWorkParam` that overlaps a `Start` -/

/-- `SetWorkParam` is its three sections run one after the other. -/
theorem SetWorkParam_sections (self : MySwitcher) (work pause count : Nat) :
    SetWorkParam self work pause count =
      if SetWorkParam_check self work pause count = true then
        (true, SetWorkParam_commit (SetWorkParam_store self work pause count))
      else (false, self) := by
  unfold SetWorkParam SetWorkParam_check SetWorkParam_commit SetWorkParam_store
  split_ifs <;> simp_all

/-- C16 (the code at the failing schedule): on a Ready controller with parameters (3, 0, 1),
caller A enters `SetWorkParam(5, 1, 2)` and passes the phase test; caller B then runs
`Start()`, which returns `true` and leaves phase Running; A then goes on, stores (5, 1, 2) and
sets the phase to Ready, with the output ON and the timer armed. Called after that `Start()`
as a whole, the same `SetWorkParam` returns `false`. -/
theorem SetWorkParam_overlapping_Start :
    readySingle.status_info_.state = SwitcherState.kReady ∧
    SetWorkParam_check readySingle 5 1 2 = true ∧
    (Start readySingle 0).1 = true ∧
    (Start readySingle 0).2.status_info_.state = SwitcherState.kRun ∧
    (SetWorkParam_commit (SetWorkParam_store (Start readySingle 0).2 5 1 2)).work_param_ =
      { work_time := 5, pause_time := 1, work_count := 2 } ∧
    (SetWorkParam_commit (SetWorkParam_store (Start readySingle 0).2 5 1 2)).status_info_.state =
      SwitcherState.kReady ∧
    outputOn (SetWorkParam_commit (SetWorkParam_store (Start readySingle 0).2 5 1 2)) ∧
    (SetWorkParam_commit (SetWorkParam_store (Start readySingle 0).2 5 1 2)).timer_active_ =
      true ∧
    (SetWorkParam (Start readySingle 0).2 5 1 2).1 = false := by
  decide

/-! ## The timer period -/

/-- C20 (the code at the failing input): `SetWorkParam(4294968, 0, 1)` is accepted, and
`Start()` arms the timer with a period of 704 ms, not 4294968000 ms: the 32-bit product
`time_left * 1000` wraps. -/
theorem Start_period_wraps :
    (SetWorkParam fresh 4294968 0 1).1 = true ∧
    overlongRun.status_info_.time_left = 4294968 ∧
    overlongRun.timer_active_ = true ∧
    overlongRun.timer_period_ms_ = 704 ∧
    overlongRun.timer_period_ms_ ≠ 4294968 * 1000 := by
  decide

/-! ## Calls that overlap -/

/-- `Start` is its two sections run one right after the other. -/
theorem Start_sections (self : MySwitcher) (tick_now : Nat) :
    Start self tick_now =
      if (Start_locked self tick_now).1 = true then
        (true, Start_unlocked (Start_locked self tick_now).2)
      else (false, self) := by
  obtain ⟨pin, ah, ⟨st, rtt, tl, cl, stk⟩, wp, th, scb, sarg, wcb, warg, pcb, parg, fcb, farg,
    lvl, ta, tp, inv⟩ := self
  cases st <;> cases scb <;> simp [Start, Start_locked, Start_unlocked]

/-- The timer-expiry handler is its two sections run one right after the other. -/
theorem SwitchToNextState_sections (self : MySwitcher) (tick_now : Nat) :
    SwitchToNextState self tick_now =
      SwitchToNextState_unlocked (SwitchToNextState_locked self tick_now).1
        (SwitchToNextState_locked self tick_now).2 := by
  obtain ⟨pin, ah, ⟨st, rtt, tl, cl, stk⟩, wp, th, scb, sarg, wcb, warg, pcb, parg, fcb, farg,
    lvl, ta, tp, inv⟩ := self
  cases st
  case kRun =>
    by_cases hc : sub32 cl 1 = 0
    · simp only [SwitchToNextState, SwitchToNextState_locked, TurnOff, hc, if_true]
      cases fcb <;> rfl
    · simp only [SwitchToNextState, SwitchToNextState_locked, TurnOff, hc, if_false]
      cases wcb <;> rfl
  case kPause =>
    cases pcb <;> rfl
  all_goals rfl

/-- C14 (the code at the failing schedule): on a Ready controller on the valid pin 4, caller A
enters `Start()` and runs its locked section, which sets phase Running; caller B then runs a
whole `Stop()`, which drives the output OFF and leaves phase Ready; A then runs the rest of
its `Start()`: `TurnOn` and `xTimerStart`. Both calls have returned, and the output is ON and
the timer armed while the phase is Ready. -/
theorem Start_overlapping_Stop :
    readySingle.ctrl_pin_ = 4 ∧
    readySingle.status_info_.state = SwitcherState.kReady ∧
    (Start_locked readySingle 0).1 = true ∧
    (Start_locked readySingle 0).2.status_info_.state = SwitcherState.kRun ∧
    (Stop 10 (Start_locked readySingle 0).2 5).status_info_.state = SwitcherState.kReady ∧
    outputOff (Stop 10 (Start_locked readySingle 0).2 5) ∧
    startOverlappedByStop.status_info_.state = SwitcherState.kReady ∧
    outputOn startOverlappedByStop ∧
    startOverlappedByStop.gpio_level_ = some 1 ∧
    startOverlappedByStop.timer_active_ = true ∧
    ¬ (outputOn startOverlappedByStop ↔
      startOverlappedByStop.status_info_.state = SwitcherState.kRun) := by
  decide

/-- C17 (the code at the failing schedule): on a Ready controller with parameters (2, 1, 5),
caller A enters `SetWorkParam(1, 0, 1)` and passes the phase test; caller B then runs a whole
`Start()`, which leaves phase Running with `count_left = 5`; A then stores its parameters:
the phase is Running with `count_left = 5` and `work_count = 1`. -/
theorem count_left_above_work_count :
    readyFive.status_info_.state = SwitcherState.kReady ∧
    SetWorkParam_check readyFive 1 0 1 = true ∧
    (Start readyFive 0).1 = true ∧
    (Start readyFive 0).2.status_info_.count_left = 5 ∧
    storeAfterStart.status_info_.state = SwitcherState.kRun ∧
    storeAfterStart.status_info_.count_left = 5 ∧
    storeAfterStart.work_param_.work_count = 1 ∧
    ¬ (storeAfterStart.status_info_.count_left ≤ storeAfterStart.work_param_.work_count) := by
  decide

/-- C18 (counterexample): in a run (2, 1, 2) with all four callbacks registered, the handler
of the first work expiry runs its locked section (Running to Paused), another caller then
runs a whole `Stop()` (which runs `on_finished` in phase Finished and leaves phase Ready), and
the handler then runs `on_work_done`: it is called in phase Ready, not Paused, and after
`on_finished`. -/
theorem on_work_done_sees_ready :
    twoCycleRunWithCallbacks.status_info_.state = SwitcherState.kRun ∧
    (SwitchToNextState_locked twoCycleRunWithCallbacks 200).1.workdone_flag = true ∧
    (SwitchToNextState_locked twoCycleRunWithCallbacks 200).2.status_info_.state =
      SwitcherState.kPause ∧
    (Stop 10 (SwitchToNextState_locked twoCycleRunWithCallbacks 200).2 210).status_info_.state =
      SwitcherState.kReady ∧
    handlerOverlappedByStop.invoked_ =
      [{ cb := 1, arg := 0, observed := SwitcherState.kRun },
       { cb := 4, arg := 0, observed := SwitcherState.kFinished },
       { cb := 2, arg := 0, observed := SwitcherState.kReady }] ∧
    twoCycleRunWithCallbacks.workdone_cb_ = some 2 := by
  decide

/-! ## The phase a callback sees -/

/-- C18 (amended): when no other call on the controller runs between the state change an
operation makes under the status lock and the callbacks it then runs, every callback is run in
the target phase of the transition. `Start()` runs `on_start` in phase Running (and nothing
when it refuses); the timer-expiry handler runs `on_work_done` in phase Paused,
`on_pause_done` in phase Running and `on_finished` in phase Finished (and nothing outside
Running and Paused); `Stop()` from Running or Paused runs `on_finished` in phase Finished; and
where `on_finished` was run the phase is Ready once the operation has completed. `Start` and
the handler are here their locked section and their callbacks run one right after the
other. -/
theorem callbacks_see_target_phase (portTICK_PERIOD_MS : Nat) (self : MySwitcher)
    (tick_now : Nat) :
    (Start self tick_now).2.invoked_ = self.invoked_ ++
      (if self.status_info_.state = SwitcherState.kReady then
        event self.start_cb_ self.start_cb_arg_ SwitcherState.kRun
      else []) ∧
    (SwitchToNextState self tick_now).invoked_ = self.invoked_ ++
      (match self.status_info_.state with
        | .kRun =>
          if sub32 self.status_info_.count_left 1 = 0 then
            event self.finished_cb_ self.finished_cb_arg_ SwitcherState.kFinished
          else event self.workdone_cb_ self.workdone_cb_arg_ SwitcherState.kPause
        | .kPause => event self.pausedone_cb_ self.pausedone_cb_arg_ SwitcherState.kRun
        | _ => []) ∧
    (self.status_info_.state = SwitcherState.kRun →
      sub32 self.status_info_.count_left 1 = 0 → self.finished_cb_.isSome = true →
      (SwitchToNextState self tick_now).status_info_.state = SwitcherState.kReady) ∧
    ((self.status_info_.state = SwitcherState.kRun ∨
        self.status_info_.state = SwitcherState.kPause) →
      (Stop portTICK_PERIOD_MS self tick_now).invoked_ = self.invoked_ ++
          event self.finished_cb_ self.finished_cb_arg_ SwitcherState.kFinished ∧
        (Stop portTICK_PERIOD_MS self tick_now).status_info_.state = SwitcherState.kReady) ∧
    Start self tick_now =
      (if (Start_locked self tick_now).1 = true then
        (true, Start_unlocked (Start_locked self tick_now).2)
      else (false, self)) ∧
    SwitchToNextState self tick_now =
      SwitchToNextState_unlocked (SwitchToNextState_locked self tick_now).1
        (SwitchToNextState_locked self tick_now).2 := by
  obtain ⟨pin, ah, ⟨st, rtt, tl, cl, stk⟩, wp, th, scb, sarg, wcb, warg, pcb, parg, fcb, farg,
    lvl, ta, tp, inv⟩ := self
  refine ⟨?_, ?_, ?_, ?_, Start_sections _ _, SwitchToNextState_sections _ _⟩
  · cases st <;> cases scb <;>
      simp [Start, callIfSet, xTimerStart, TurnOn, xTimerChangePeriod, event]
  · cases st
    case kRun =>
      by_cases hc : sub32 cl 1 = 0
      · cases fcb <;> simp [SwitchToNextState, hc, callIfSet, xTimerStop, TurnOff, event]
      · cases wcb <;>
          simp [SwitchToNextState, hc, callIfSet, xTimerChangePeriod, TurnOff, event]
    case kPause =>
      cases pcb <;> simp [SwitchToNextState, callIfSet, xTimerChangePeriod, TurnOn, event]
    all_goals simp [SwitchToNextState, TurnOff]
  · intro h hc hf
    simp only at h hc hf
    subst h
    cases fcb
    · simp at hf
    · simp [SwitchToNextState, hc, callIfSet, xTimerStop, TurnOff]
  · intro h
    simp only at h
    rcases h with h | h <;> subst h <;> cases fcb <;>
      simp [Stop, callIfSet, xTimerStop, TurnOff, event]

/-! ## Invariants of the reachable states -/

/-- No call changes the pin, the polarity or the timer handle. -/
theorem exec_wiring (portTICK_PERIOD_MS : Nat) (op : Op) (self : MySwitcher) :
    wiring (op.exec portTICK_PERIOD_MS self) = wiring self := by
  cases op with
  | setWorkParam work pause count =>
    simp only [Op.exec, SetWorkParam]
    split_ifs <;> rfl
  | setCallback cb arg type =>
    simp only [Op.exec, SetCallback]
    split_ifs
    · rfl
    · rfl
    · cases type <;> rfl
  | start tick_now =>
    obtain ⟨pin, ah, ⟨st, rtt, tl, cl, stk⟩, wp, th, scb, sarg, wcb, warg, pcb, parg, fcb, farg,
      lvl, ta, tp, inv⟩ := self
    cases st <;> cases scb <;>
      simp [Op.exec, Start, callIfSet, xTimerStart, TurnOn, xTimerChangePeriod, wiring]
  | stop tick_now =>
    obtain ⟨pin, ah, ⟨st, rtt, tl, cl, stk⟩, wp, th, scb, sarg, wcb, warg, pcb, parg, fcb, farg,
      lvl, ta, tp, inv⟩ := self
    cases st <;> cases fcb <;> simp [Op.exec, Stop, callIfSet, xTimerStop, TurnOff, wiring]
  | expire tick_now => exact SwitchToNextState_wiring self tick_now
  | report tick_now =>
    obtain ⟨pin, ah, ⟨st, rtt, tl, cl, stk⟩, wp, th, scb, sarg, wcb, warg, pcb, parg, fcb, farg,
      lvl, ta, tp, inv⟩ := self
    cases st <;> simp [Op.exec, GetWorkStateJson, wiring]

/-- Every call keeps the output following the phase. -/
theorem exec_outputFollowsPhase (portTICK_PERIOD_MS : Nat) (op : Op) (self : MySwitcher)
    (h : outputFollowsPhase self) : outputFollowsPhase (op.exec portTICK_PERIOD_MS self) := by
  obtain ⟨pin, ah, ⟨st, rtt, tl, cl, stk⟩, wp, th, scb, sarg, wcb, warg, pcb, parg, fcb, farg,
    lvl, ta, tp, inv⟩ := self
  simp only [outputFollowsPhase, h] at h
  cases op with
  | setWorkParam work pause count =>
    by_cases hv : work = 0 ∨ count = 0 ∨ (pause = 0 ∧ count ≠ 1) <;> cases st <;>
      simp [Op.exec, SetWorkParam, hv, SwitcherState.toNat, outputFollowsPhase, h]
  | setCallback cb arg type =>
    cases type <;> cases st <;>
      simp [Op.exec, SetCallback, CallbackType.toNat, SwitcherState.toNat, outputFollowsPhase, h]
  | start tick_now =>
    cases st <;> cases scb <;>
      simp [Op.exec, Start, callIfSet, xTimerStart, TurnOn, xTimerChangePeriod,
        outputFollowsPhase, h]
  | stop tick_now =>
    cases st <;> cases fcb <;>
      simp [Op.exec, Stop, callIfSet, xTimerStop, TurnOff, outputFollowsPhase, h]
  | expire tick_now =>
    cases st
    case kRun =>
      by_cases hc : sub32 cl 1 = 0
      · cases fcb <;>
          simp [Op.exec, SwitchToNextState, hc, callIfSet, xTimerStop, TurnOff,
            outputFollowsPhase, h]
      · cases wcb <;>
          simp [Op.exec, SwitchToNextState, hc, callIfSet, xTimerChangePeriod, TurnOff,
            outputFollowsPhase, h]
    case kPause =>
      cases pcb <;>
        simp [Op.exec, SwitchToNextState, callIfSet, xTimerChangePeriod, TurnOn,
          outputFollowsPhase, h]
    all_goals simp [Op.exec, SwitchToNextState, TurnOff, outputFollowsPhase, h]
  | report tick_now =>
    cases st <;> simp [Op.exec, GetWorkStateJson, outputFollowsPhase, h]

/-- Every well-typed call keeps the cycle counters in range. -/
theorem exec_countsInRange (portTICK_PERIOD_MS : Nat) (op : Op) (self : MySwitcher)
    (hop : op.wellTyped) (h : countsInRange self) :
    countsInRange (op.exec portTICK_PERIOD_MS self) := by
  obtain ⟨pin, ah, ⟨st, rtt, tl, cl, stk⟩, wp, th, scb, sarg, wcb, warg, pcb, parg, fcb, farg,
    lvl, ta, tp, inv⟩ := self
  obtain ⟨wt, pt, wc⟩ := wp
  simp only [countsInRange, U32] at h
  obtain ⟨h1, h2, h3⟩ := h
  cases op with
  | setWorkParam work pause count =>
    simp only [Op.wellTyped, U32] at hop
    by_cases hv : work = 0 ∨ count = 0 ∨ (pause = 0 ∧ count ≠ 1)
    · simp only [Op.exec, SetWorkParam, if_pos hv]
      exact ⟨h1, h2, h3⟩
    · have hc0 : 1 ≤ count := by
        rcases Nat.eq_zero_or_pos count with h0 | h0
        · exact absurd (Or.inr (Or.inl h0)) hv
        · exact h0
      simp only [Op.exec, SetWorkParam, if_neg hv]
      cases st <;>
        simp_all [SwitcherState.toNat, countsInRange, U32]
  | setCallback cb arg type =>
    cases type <;> cases st <;>
      simp_all [Op.exec, SetCallback, CallbackType.toNat, SwitcherState.toNat, countsInRange,
        U32]
  | start tick_now =>
    cases st <;> cases scb <;>
      simp_all [Op.exec, Start, callIfSet, xTimerStart, TurnOn, xTimerChangePeriod,
        countsInRange, U32]
  | stop tick_now =>
    cases st <;> cases fcb <;>
      simp_all [Op.exec, Stop, callIfSet, xTimerStop, TurnOff, countsInRange, U32]
  | expire tick_now =>
    cases st
    case kRun =>
      have h4 := h3 (Or.inl rfl)
      simp only at h4
      have hs : sub32 cl 1 = cl - 1 := by
        unfold sub32 U32
        omega
      by_cases hc : sub32 cl 1 = 0
      · cases fcb <;>
          simp_all [Op.exec, SwitchToNextState, callIfSet, xTimerStop, TurnOff, countsInRange,
            U32]
      · have hc1 : ¬ cl - 1 = 0 := by rw [← hs]; exact hc
        cases wcb <;>
          simp [Op.exec, SwitchToNextState, hc1, callIfSet, xTimerChangePeriod, TurnOff,
            countsInRange, U32, h1, h2, hs] <;> omega
    case kPause =>
      have h4 := h3 (Or.inr rfl)
      simp only at h4
      cases pcb <;>
        simp [Op.exec, SwitchToNextState, callIfSet, xTimerChangePeriod, TurnOn,
          countsInRange, U32, h1, h2, h4]
    all_goals simp_all [Op.exec, SwitchToNextState, TurnOff, countsInRange, U32]
  | report tick_now =>
    cases st <;> simp_all [Op.exec, GetWorkStateJson, countsInRange, U32]

/-- A property every call keeps holds after a sequence of calls. -/
theorem execAll_invariant (portTICK_PERIOD_MS : Nat) (P : MySwitcher → Prop) (Q : Op → Prop)
    (step : ∀ op self, Q op → P self → P (op.exec portTICK_PERIOD_MS self))
    (ops : List Op) (hops : ∀ op ∈ ops, Q op) (self : MySwitcher) (h : P self) :
    P (execAll portTICK_PERIOD_MS ops self) := by
  induction ops generalizing self with
  | nil => exact h
  | cons op ops ih =>
    exact ih (fun o ho => hops o (List.mem_cons_of_mem _ ho)) _
      (step op self (hops op (List.mem_cons_self _ _)) h)

/-- A freshly constructed controller on a valid pin has its output OFF in phase Idle. -/
theorem ctor_outputFollowsPhase (GPIO_NUM_MAX pin : Int) (active_high timer_created : Bool)
    (hlo : GPIO_NUM_NC < pin) (hhi : pin < GPIO_NUM_MAX) :
    outputFollowsPhase (ctor GPIO_NUM_MAX pin active_high timer_created) ∧
    (ctor GPIO_NUM_MAX pin active_high timer_created).active_high_ = active_high := by
  have hc : ¬ (pin ≤ GPIO_NUM_NC ∨ pin ≥ GPIO_NUM_MAX) := by
    intro h
    rcases h with h | h <;> omega
  simp [ctor, hc, TurnOff, outputFollowsPhase]

/-- A freshly constructed controller, on any pin, has its counters in range. -/
theorem ctor_countsInRange (GPIO_NUM_MAX pin : Int) (active_high timer_created : Bool) :
    countsInRange (ctor GPIO_NUM_MAX pin active_high timer_created) := by
  unfold ctor
  split_ifs <;> simp [countsInRange, TurnOff, U32]

/-- Calls that do not overlap: in every state reached from a controller constructed on a valid
pin by a sequence of calls, each run to its end before the next one starts and none made from
a callback, the output is ON if and only if the phase is Running, and OFF if and only if it is
not; the polarity given to the constructor only selects the level that means ON: 1 when
active high, 0 when active low. -/
theorem output_on_iff_running (GPIO_NUM_MAX pin : Int) (active_high timer_created : Bool)
    (portTICK_PERIOD_MS : Nat) (ops : List Op) (self : MySwitcher)
    (hlo : GPIO_NUM_NC < pin) (hhi : pin < GPIO_NUM_MAX)
    (hself : self = execAll portTICK_PERIOD_MS ops
      (ctor GPIO_NUM_MAX pin active_high timer_created)) :
    (outputOn self ↔ self.status_info_.state = SwitcherState.kRun) ∧
    (outputOff self ↔ self.status_info_.state ≠ SwitcherState.kRun) ∧
    self.active_high_ = active_high ∧
    self.gpio_level_ = some
      (if self.status_info_.state = SwitcherState.kRun then (if active_high then 1 else 0)
        else (if active_high then 0 else 1)) := by
  obtain ⟨b1, b2⟩ := ctor_outputFollowsPhase GPIO_NUM_MAX pin active_high timer_created hlo hhi
  have hinv : outputFollowsPhase self ∧ self.active_high_ = active_high := by
    rw [hself]
    refine execAll_invariant portTICK_PERIOD_MS
      (fun s => outputFollowsPhase s ∧ s.active_high_ = active_high) (fun _ => True) ?_ ops
      (fun _ _ => trivial) _ ⟨b1, b2⟩
    intro op s _ hs
    refine ⟨exec_outputFollowsPhase portTICK_PERIOD_MS op s hs.1, ?_⟩
    have hw := exec_wiring portTICK_PERIOD_MS op s
    simp only [wiring, Prod.mk.injEq] at hw
    rw [hw.2.1, hs.2]
  obtain ⟨h1, h2⟩ := hinv
  unfold outputFollowsPhase at h1
  rw [h2] at h1
  refine ⟨?_, ?_, h2, h1⟩
  · unfold outputOn
    rw [h1, h2]
    by_cases hr : self.status_info_.state = SwitcherState.kRun <;> cases active_high <;>
      simp [hr]
  · unfold outputOff
    rw [h1, h2]
    by_cases hr : self.status_info_.state = SwitcherState.kRun <;> cases active_high <;>
      simp [hr]

/-- An instance of `output_on_iff_running`: an active-low controller on pin 4, after
`SetWorkParam(2, 1, 2)`, `Start()` and one timer expiry, is Paused with its output OFF, at
level 1. -/
theorem output_on_iff_running_witness :
    (execAll 10 [Op.setWorkParam 2 1 2, Op.start 0, Op.expire 200]
      (ctor 49 4 false true)).status_info_.state = SwitcherState.kPause ∧
    (execAll 10 [Op.setWorkParam 2 1 2, Op.start 0, Op.expire 200]
      (ctor 49 4 false true)).gpio_level_ = some
        (if (execAll 10 [Op.setWorkParam 2 1 2, Op.start 0, Op.expire 200]
            (ctor 49 4 false true)).status_info_.state = SwitcherState.kRun then
          (if false = true then 1 else 0) else (if false = true then 0 else 1)) :=
  ⟨by decide,
    (output_on_iff_running 49 4 false true 10
      [Op.setWorkParam 2 1 2, Op.start 0, Op.expire 200] _ (by decide) (by decide) rfl).2.2.2⟩

/-- Calls that do not overlap: in every state reached from a freshly constructed controller by
a sequence of calls with `uint32_t` arguments, each run to its end before the next one starts,
a phase of Running or Paused has `1 ≤ count_left ≤ work_count`; hence a timer expiry in phase
Running lowers `count_left` by exactly 1, without wrap-around, and it ends the run exactly
when the new `count_left` is 0: then `on_finished` (if registered) is run in phase Finished
and the phase is Finished, or Ready once a registered `on_finished` has returned; otherwise
the phase is Paused. -/
theorem count_left_in_range (GPIO_NUM_MAX pin : Int) (active_high timer_created : Bool)
    (portTICK_PERIOD_MS : Nat) (ops : List Op) (self : MySwitcher)
    (hops : ∀ op ∈ ops, op.wellTyped)
    (hself : self = execAll portTICK_PERIOD_MS ops
      (ctor GPIO_NUM_MAX pin active_high timer_created)) :
    ((self.status_info_.state = SwitcherState.kRun ∨
        self.status_info_.state = SwitcherState.kPause) →
      1 ≤ self.status_info_.count_left ∧
        self.status_info_.count_left ≤ self.work_param_.work_count) ∧
    (self.status_info_.state = SwitcherState.kRun → ∀ tick_now : Nat,
      (SwitchToNextState self tick_now).status_info_.count_left + 1 =
        self.status_info_.count_left ∧
      ((SwitchToNextState self tick_now).status_info_.count_left = 0 ↔
        (SwitchToNextState self tick_now).status_info_.state ≠ SwitcherState.kPause) ∧
      ((SwitchToNextState self tick_now).status_info_.count_left = 0 →
        (SwitchToNextState self tick_now).invoked_ = self.invoked_ ++
            event self.finished_cb_ self.finished_cb_arg_ SwitcherState.kFinished ∧
          (SwitchToNextState self tick_now).status_info_.state =
            (if self.finished_cb_.isSome then SwitcherState.kReady
              else SwitcherState.kFinished)) ∧
      ((SwitchToNextState self tick_now).status_info_.count_left ≠ 0 →
        (SwitchToNextState self tick_now).status_info_.state = SwitcherState.kPause)) := by
  have hinv : countsInRange self := by
    rw [hself]
    exact execAll_invariant portTICK_PERIOD_MS countsInRange Op.wellTyped
      (fun op s hop hs => exec_countsInRange portTICK_PERIOD_MS op s hop hs) ops hops _
      (ctor_countsInRange GPIO_NUM_MAX pin active_high timer_created)
  obtain ⟨h1, h2, h3⟩ := hinv
  refine ⟨h3, fun hrun tick_now => ?_⟩
  obtain ⟨h4, h5⟩ := h3 (Or.inl hrun)
  have hs : sub32 self.status_info_.count_left 1 = self.status_info_.count_left - 1 := by
    unfold sub32 U32
    unfold U32 at h2
    omega
  by_cases hc : sub32 self.status_info_.count_left 1 = 0
  · obtain ⟨a1, -, -, -, a5⟩ := SwitchToNextState_run_to_finished self tick_now hrun hc
    have hcl : self.status_info_.count_left = 1 := by omega
    rw [a1, a5]
    refine ⟨by simp [hcl], ⟨fun _ => ?_, fun _ => rfl⟩, fun _ => ⟨rfl, rfl⟩,
      fun hne => absurd rfl hne⟩
    show (if self.finished_cb_.isSome then SwitcherState.kReady
      else SwitcherState.kFinished) ≠ SwitcherState.kPause
    split_ifs <;> simp
  · obtain ⟨a1, -⟩ := SwitchToNextState_run_to_pause self tick_now hrun hc
    rw [a1]
    have hne : sub32 self.status_info_.count_left 1 ≠ 0 := hc
    refine ⟨?_, ⟨fun h0 => absurd h0 hne, fun h0 => absurd rfl h0⟩,
      fun h0 => absurd h0 hne, fun _ => rfl⟩
    show sub32 self.status_info_.count_left 1 + 1 = self.status_info_.count_left
    omega

/-- An instance of `count_left_in_range`: after `SetWorkParam(2, 1, 2)`, `Start()`, a work
expiry and a pause expiry the controller is Running with `count_left = 1 ≤ 2`. -/
theorem count_left_in_range_witness :
    (execAll 10 [Op.setWorkParam 2 1 2, Op.start 0, Op.expire 200, Op.expire 300]
      fresh).status_info_.state = SwitcherState.kRun ∧
    (execAll 10 [Op.setWorkParam 2 1 2, Op.start 0, Op.expire 200, Op.expire 300]
      fresh).status_info_.count_left = 1 ∧
    (1 ≤ (execAll 10 [Op.setWorkParam 2 1 2, Op.start 0, Op.expire 200, Op.expire 300]
        fresh).status_info_.count_left ∧
      (execAll 10 [Op.setWorkParam 2 1 2, Op.start 0, Op.expire 200, Op.expire 300]
        fresh).status_info_.count_left ≤
      (execAll 10 [Op.setWorkParam 2 1 2, Op.start 0, Op.expire 200, Op.expire 300]
        fresh).work_param_.work_count) :=
  ⟨by decide, by decide,
    (count_left_in_range 49 4 true true 10
      [Op.setWorkParam 2 1 2, Op.start 0, Op.expire 200, Op.expire 300] _ (by decide) rfl).1
      (Or.inl (by decide))⟩

/-! ## What holds of the report and of the timer period short of a wrap -/

/-- The report writes no field but `time_left`, and a second report at the same tick returns
the same string and the same state. -/
theorem GetWorkStateJson_frame (portTICK_PERIOD_MS : Nat) (self : MySwitcher)
    (tick_now : Nat) :
    (GetWorkStateJson portTICK_PERIOD_MS self tick_now).2 =
      { self with status_info_ := { self.status_info_ with
        time_left :=
          (GetWorkStateJson portTICK_PERIOD_MS self tick_now).2.status_info_.time_left } } ∧
    GetWorkStateJson portTICK_PERIOD_MS
        (GetWorkStateJson portTICK_PERIOD_MS self tick_now).2 tick_now =
      GetWorkStateJson portTICK_PERIOD_MS self tick_now := by
  obtain ⟨pin, ah, ⟨st, rtt, tl, cl, stk⟩, wp, th, scb, sarg, wcb, warg, pcb, parg, fcb, farg,
    lvl, ta, tp, inv⟩ := self
  cases st <;> simp [GetWorkStateJson]

/-- While the tick counter has not wrapped, the elapsed milliseconds fit 32 bits and the
elapsed whole seconds do not exceed the duration of the phase, the reported `time_left` is
the duration minus the elapsed whole seconds. -/
theorem GetWorkStateJson_time_left_in_phase (portTICK_PERIOD_MS : Nat) (self : MySwitcher)
    (tick_now : Nat) (h1 : self.status_info_.start_tick ≤ tick_now) (h2 : tick_now < 2 ^ 32)
    (h3 : (tick_now - self.status_info_.start_tick) * portTICK_PERIOD_MS < 2 ^ 32) :
    (self.status_info_.state = SwitcherState.kRun →
      self.work_param_.work_time < 2 ^ 32 →
      (tick_now - self.status_info_.start_tick) * portTICK_PERIOD_MS / 1000 ≤
        self.work_param_.work_time →
      (GetWorkStateJson portTICK_PERIOD_MS self tick_now).2.status_info_.time_left =
        self.work_param_.work_time -
          (tick_now - self.status_info_.start_tick) * portTICK_PERIOD_MS / 1000) ∧
    (self.status_info_.state = SwitcherState.kPause →
      self.work_param_.pause_time < 2 ^ 32 →
      (tick_now - self.status_info_.start_tick) * portTICK_PERIOD_MS / 1000 ≤
        self.work_param_.pause_time →
      (GetWorkStateJson portTICK_PERIOD_MS self tick_now).2.status_info_.time_left =
        self.work_param_.pause_time -
          (tick_now - self.status_info_.start_tick) * portTICK_PERIOD_MS / 1000) := by
  obtain ⟨pin, ah, ⟨st, rtt, tl, cl, stk⟩, wp, th, scb, sarg, wcb, warg, pcb, parg, fcb, farg,
    lvl, ta, tp, inv⟩ := self
  simp only at h1 h3
  have e1 : sub32 tick_now stk = tick_now - stk := by
    unfold sub32 U32
    omega
  have e2 : mul32 (tick_now - stk) portTICK_PERIOD_MS = (tick_now - stk) * portTICK_PERIOD_MS :=
    Nat.mod_eq_of_lt h3
  have e3 : ∀ d : Nat, d < 2 ^ 32 → (tick_now - stk) * portTICK_PERIOD_MS / 1000 ≤ d →
      sub32 d ((tick_now - stk) * portTICK_PERIOD_MS / 1000) =
        d - (tick_now - stk) * portTICK_PERIOD_MS / 1000 := by
    intro d hd hle
    unfold sub32 U32
    omega
  constructor
  · intro hs hw hle
    simp only at hs hw hle
    subst hs
    simp [GetWorkStateJson, e1, e2, e3 _ hw hle]
  · intro hs hw hle
    simp only at hs hw hle
    subst hs
    simp [GetWorkStateJson, e1, e2, e3 _ hw hle]

/-- For a work time of at most 4294967 s, `Start()` arms the timer with `work_time * 1000`
milliseconds. -/
theorem Start_period_in_range (self : MySwitcher) (tick_now : Nat)
    (h : self.status_info_.state = SwitcherState.kReady)
    (hw : self.work_param_.work_time ≤ 4294967) :
    (Start self tick_now).2.timer_period_ms_ = self.work_param_.work_time * 1000 := by
  obtain ⟨pin, ah, ⟨st, rtt, tl, cl, stk⟩, wp, th, scb, sarg, wcb, warg, pcb, parg, fcb, farg,
    lvl, ta, tp, inv⟩ := self
  simp only at h hw
  subst h
  have e : mul32 wp.work_time 1000 = wp.work_time * 1000 := by
    unfold mul32 U32
    omega
  cases scb <;> simp [Start, callIfSet, xTimerStart, TurnOn, xTimerChangePeriod, e]

end MySwitcher
